import Mathlib

/-!
Verification development for the deep-vision interview frontend
(src/unnamed/part_001, function deepVision).  The state the claims talk
about is the Alpine component state: the current session (dimension
coverage map and interview log), the transient current question, and the
answer-selection fields.  Sessions live on the server; the frontend
mutates its copy only from successful API responses, so API calls are
modelled by passing their outcome as an explicit argument.
-/

namespace DeepVision

/-- Dimension keys, in the canonical order of dimensionOrder (line 49). -/
inductive Dimension where
  | customer_needs
  | business_process
  | tech_constraints
  | project_constraints
deriving DecidableEq, Repr

/-- Canonical dimension order (dimensionOrder, line 49). -/
def dimensionOrder : List Dimension :=
  [Dimension.customer_needs, Dimension.business_process,
   Dimension.tech_constraints, Dimension.project_constraints]

/-- Entry of a session's interview log (shape used by submit-answer, lines 526-532). -/
structure LogEntry where
  question : String
  answer : String
  dimension : Dimension
  options : List String
  multi_select : Bool

/-- Session state as held by the frontend: the per-dimension coverage numbers
(dimensions[dim].coverage) and the interview log.  Coverage values are the
integers reported by the server. -/
structure Session where
  dimensions : Dimension → Nat
  interview_log : List LogEntry

/-- Transient current question (currentQuestion, lines 53-62 and the error
objects of lines 381-389 and 431-438).  Fields absent on a given JS object
are modelled by their JS-falsy defaults. -/
structure Question where
  text : String := ""
  options : List String := []
  multiSelect : Bool := false
  isFollowUp : Bool := false
  followUpReason : Option String := none
  conflictDetected : Bool := false
  conflictDescription : Option String := none
  aiGenerated : Bool := false
  serviceError : Bool := false
  errorTitle : String := ""
  errorDetail : String := ""

/-- Component state: the fields of the deepVision object that the claims
mention (session, active dimension, current question, answer selection,
loading flag, last toast message). -/
structure ClientState where
  currentSession : Session
  currentDimension : Dimension
  currentQuestion : Question
  selectedAnswers : List String
  otherAnswerText : String
  otherSelected : Bool
  loadingQuestion : Bool := false
  toastMessage : String := ""

/-- getNextIncompleteDimension (lines 347-354): scan dimensionOrder from the
start, return the first dimension with coverage below 100, else
dimensionOrder[0]. -/
def getNextIncompleteDimension (s : Session) : Dimension :=
  match dimensionOrder.find? (fun dim => s.dimensions dim < 100) with
  | some dim => dim
  | none => Dimension.customer_needs

/-- Position of a dimension in dimensionOrder (dimensionOrder.indexOf, line 395). -/
def dimIndex : Dimension → Nat
  | Dimension.customer_needs => 0
  | Dimension.business_process => 1
  | Dimension.tech_constraints => 2
  | Dimension.project_constraints => 3

/-- dimensionOrder[n % 4], the wrap-around lookup of line 397. -/
def dimAt (n : Nat) : Dimension :=
  match n % 4 with
  | 0 => Dimension.customer_needs
  | 1 => Dimension.business_process
  | 2 => Dimension.tech_constraints
  | _ => Dimension.project_constraints

/-- Wrap-around scan of fetchNextQuestion's completed branch (lines 395-403):
try the dimensions at offsets 1..4 after the current one, return the first
whose coverage is below 100. -/
def nextDimAfter (s : Session) (cur : Dimension) : Option Dimension :=
  (([1, 2, 3, 4].map (fun i => dimAt (dimIndex cur + i))).find?
    (fun dim => s.dimensions dim < 100))

/-- Modelled from the spec: the nextIncomplete contract of spec section 4.2,
which scans dimensions in canonical order starting right after the currently
active one (wrapping), returns the first with coverage below 100, and falls
back to the first dimension in canonical order when all are at least 100.
Kept for comparison with getNextIncompleteDimension, which is the code. -/
def specNextIncompleteDimension (s : Session) (cur : Dimension) : Dimension :=
  match nextDimAfter s cur with
  | some dim => dim
  | none => Dimension.customer_needs

/-- getTotalProgress (lines 962-967): sum the coverage values over
Object.values(dimensions) (canonical key order) and return
Math.round(total / 4), written for naturals as (2 * total + 4) / 8. -/
def sumCoverage (s : Session) : Nat :=
  (dimensionOrder.map (fun dim => s.dimensions dim)).foldl (· + ·) 0

def getTotalProgress (s : Session) : Nat :=
  (2 * sumCoverage s + 4) / 8

/-- JS String.prototype.trim: drop whitespace from both ends (written over
the character list so that it evaluates by kernel reduction). -/
def jsTrim (s : String) : String :=
  (((s.toList.dropWhile Char.isWhitespace).reverse.dropWhile Char.isWhitespace).reverse).asString

/-- canSubmitAnswer (lines 447-464). -/
def canSubmitAnswer (st : ClientState) : Bool :=
  if st.currentQuestion.text == "" || st.currentQuestion.options.length == 0 then
    false
  else if st.currentQuestion.multiSelect then
    decide (0 < st.selectedAnswers.length)
      || (st.otherSelected && decide (0 < (jsTrim st.otherAnswerText).length))
  else if st.otherSelected then
    decide (0 < (jsTrim st.otherAnswerText).length)
  else
    decide (0 < st.selectedAnswers.length)

/-- Answer composition of submitAnswer (lines 508-519): multi-select joins the
selected options, plus the trimmed other-text when present, with the
full-width semicolon; single-select is the trimmed other-text when the
other option is selected, else the first selected option (selectedAnswers[0];
headD stands in for the JS index access, which the guard keeps in range). -/
def composeAnswer (multiSelect : Bool) (selectedAnswers : List String)
    (otherSelected : Bool) (otherAnswerText : String) : String :=
  if multiSelect then
    let answers :=
      if otherSelected && jsTrim otherAnswerText != "" then
        selectedAnswers ++ [jsTrim otherAnswerText]
      else
        selectedAnswers
    String.intercalate "；" answers
  else if otherSelected then
    jsTrim otherAnswerText
  else
    selectedAnswers.headD ""

/-- toggleOption (lines 467-482). -/
def toggleOption (st : ClientState) (opt : String) : ClientState :=
  if st.currentQuestion.multiSelect then
    if st.selectedAnswers.contains opt then
      { st with selectedAnswers := st.selectedAnswers.erase opt }
    else
      { st with selectedAnswers := st.selectedAnswers ++ [opt] }
  else
    { st with selectedAnswers := [opt], otherSelected := false, otherAnswerText := "" }

/-- toggleOther (lines 490-502). -/
def toggleOther (st : ClientState) : ClientState :=
  if st.currentQuestion.multiSelect then
    if st.otherSelected then
      { st with otherSelected := false, otherAnswerText := "" }
    else
      { st with otherSelected := true }
  else
    { st with selectedAnswers := [], otherSelected := true }

/-- Sequence element for the toggle invariant: one user click. -/
inductive ToggleCall where
  | option (opt : String)
  | other

def applyToggle (st : ClientState) : ToggleCall → ClientState
  | ToggleCall.option opt => toggleOption st opt
  | ToggleCall.other => toggleOther st

def applyToggles (st : ClientState) (calls : List ToggleCall) : ClientState :=
  calls.foldl applyToggle st

/-- Failure of an apiCall (lines 175-190): either the generator answered with
a non-ok status (service error) or the fetch itself threw (network error). -/
inductive ApiError where
  | network
  | service (message : String)

/-- Payload of a successful next-question response (fields read on lines
412-421; JS-absent fields arrive here with their defaulted values). -/
structure QuestionPayload where
  question : String
  options : List String
  multi_select : Bool
  is_follow_up : Bool
  follow_up_reason : Option String
  conflict_detected : Bool
  conflict_description : Option String
  ai_generated : Bool

/-- Outcome of one POST to /next-question, as fetchNextQuestion distinguishes
them: the fetch threw (network), response not ok or result.error set
(serviceFailure, lines 373-391), result.completed (line 393), or a question. -/
inductive FetchResponse where
  | network
  | serviceFailure (errorTitle errorDetail : String)
  | completed
  | question (payload : QuestionPayload)

/-- Error-state question object of lines 381-389 and 431-438. -/
def errorQuestion (title detail : String) : Question :=
  { text := "", options := [], multiSelect := false, aiGenerated := false,
    serviceError := true, errorTitle := title, errorDetail := detail }

/-- All-dimensions-done question of lines 405-410. -/
def allDoneQuestion : Question :=
  { text := "所有问题已完成！您可以确认需求并生成报告。", options := [],
    multiSelect := false, aiGenerated := false }

/-- Question built from a successful payload (lines 412-421). -/
def questionOfPayload (p : QuestionPayload) : Question :=
  { text := p.question, options := p.options, multiSelect := p.multi_select,
    isFollowUp := p.is_follow_up, followUpReason := p.follow_up_reason,
    conflictDetected := p.conflict_detected,
    conflictDescription := p.conflict_description,
    aiGenerated := p.ai_generated }

/-- Finally-block of fetchNextQuestion (lines 440-444). -/
def finishFetch (st : ClientState) : ClientState :=
  { st with loadingQuestion := false }

/-- fetchNextQuestion (lines 356-445).  The successive generator responses are
passed in resps; an exhausted list behaves like a thrown fetch (network
error).  The completed branch switches to the next incomplete dimension
after the current one (wrapping) and recurses on the remaining responses;
the session itself is never written by this function. -/
def fetchNextQuestion (st : ClientState) : List FetchResponse → ClientState
  | [] =>
    let st0 := { st with loadingQuestion := true, selectedAnswers := [],
                         otherAnswerText := "", otherSelected := false }
    finishFetch { st0 with currentQuestion := errorQuestion "网络错误" "无法连接到服务器，请检查网络连接后重试",
                           toastMessage := "网络错误" }
  | resp :: rest =>
    let st0 := { st with loadingQuestion := true, selectedAnswers := [],
                         otherAnswerText := "", otherSelected := false }
    match resp with
    | FetchResponse.network =>
      finishFetch { st0 with currentQuestion := errorQuestion "网络错误" "无法连接到服务器，请检查网络连接后重试",
                             toastMessage := "网络错误" }
    | FetchResponse.serviceFailure title detail =>
      finishFetch { st0 with currentQuestion := errorQuestion title detail,
                             toastMessage := title }
    | FetchResponse.completed =>
      match nextDimAfter st0.currentSession st0.currentDimension with
      | some dim => fetchNextQuestion { st0 with currentDimension := dim } rest
      | none => finishFetch { st0 with currentQuestion := allDoneQuestion }
    | FetchResponse.question p =>
      finishFetch { st0 with currentQuestion := questionOfPayload p }

/-- submitAnswer (lines 504-549).  The composed answer is sent to the server
(composeAnswer models lines 508-519); the submit API's outcome arrives as
apiResult.  On success the returned session replaces currentSession, the
dimension is switched once its coverage reached 100, and the next question
is fetched; on failure only a toast is shown. -/
def submitAnswer (st : ClientState) (apiResult : Except ApiError Session)
    (resps : List FetchResponse) : ClientState :=
  if canSubmitAnswer st = false then st
  else
    match apiResult with
    | Except.error _ => { st with toastMessage := "提交回答失败" }
    | Except.ok updated =>
      let st1 := { st with currentSession := updated }
      let st2 :=
        if 100 ≤ st1.currentSession.dimensions st1.currentDimension then
          { st1 with currentDimension := getNextIncompleteDimension st1.currentSession }
        else
          st1
      fetchNextQuestion st2 resps

/-- Session with customer_needs and business_process at 50 and the other two
dimensions complete; used as a concrete input. -/
def exLowSession : Session :=
  { dimensions := fun d =>
      match d with
      | Dimension.customer_needs => 50
      | Dimension.business_process => 50
      | Dimension.tech_constraints => 100
      | Dimension.project_constraints => 100,
    interview_log := [] }

/-- Session with all four coverages at concrete values 10, 20, 30, 45. -/
def exMidSession : Session :=
  { dimensions := fun d =>
      match d with
      | Dimension.customer_needs => 10
      | Dimension.business_process => 20
      | Dimension.tech_constraints => 30
      | Dimension.project_constraints => 45,
    interview_log := [] }

/-- Component state used as a concrete input: single-select question with two
options, one selected answer. -/
def exState : ClientState :=
  { currentSession := exLowSession,
    currentDimension := Dimension.customer_needs,
    currentQuestion := { text := "Q", options := ["A", "B"] },
    selectedAnswers := ["A"],
    otherAnswerText := "",
    otherSelected := false }

/-!
Diagram repair pipeline: the preprocessing block of renderMermaidCharts
(lines 765-851) applied to one diagram definition.  Strings are modelled
as character lists.  The JS regexes involved use classes that exclude
newlines, so the quadrant rewrites are modelled per line (split on the
newline character); the whole-text checks (valid data point, subgraph and
end counting, flow header) are modelled on the full character list with
the newline treated as whitespace, exactly as the backslash-s class of the
source patterns does.  Word-boundary matches of the fixed word end cannot
overlap each other, so counting matching positions agrees with the JS
global match count.
-/

/-- Chinese character test of the source patterns (range 4e00-9fa5). -/
def isCJK (c : Char) : Bool :=
  0x4e00 ≤ c.toNat && c.toNat ≤ 0x9fa5

/-- JS word character (ASCII letters, digits, underscore). -/
def isWordChar (c : Char) : Bool :=
  c.isAlpha || c.isDigit || c = '_'

/-- Substring occurrence test over character lists. -/
def containsSeq (pat : List Char) : List Char → Bool
  | [] => pat.isEmpty
  | c :: rest => pat.isPrefixOf (c :: rest) || containsSeq pat rest

/-- kwBlockedBy kw suf holds when kw can match no extension of suf: some
position inside suf already differs from kw.  Used to discharge, by
computation, that a keyword match cannot start inside a known segment. -/
def kwBlockedBy : List Char → List Char → Bool
  | [], _ => false
  | _ :: _, [] => false
  | k :: ks, c :: cs => (k != c) || kwBlockedBy ks cs

/-- Match of one quadrant-style rewrite pattern at the head of l: the keyword,
one whitespace character, then the stage condition on the rest of the line
(rest of the match is the remainder of the line, which the pattern's
greedy trailing class consumes). -/
def kwMatchAt (kw : List Char) (cond : List Char → Bool) (l : List Char) : Bool :=
  kw.isPrefixOf l &&
    (match l.drop kw.length with
     | [] => false
     | c :: rest => c.isWhitespace && cond rest)

/-- One global regex replace of a quadrant-style line pattern: find the first
position where the keyword matches with its condition, replace from there to
the end of the line with repl. -/
def rewriteKw (kw : List Char) (cond : List Char → Bool) (repl : List Char) :
    List Char → List Char
  | [] => []
  | c :: rest =>
    if kwMatchAt kw cond (c :: rest) then repl
    else c :: rewriteKw kw cond repl rest

/-- Line contains a colon after the matched keyword: the colon-form quadrant
label patterns of lines 774-777. -/
def condColon (l : List Char) : Bool := l.any (fun c => c = ':')

/-- Line contains a Chinese character after the matched keyword: the
Chinese-form patterns of lines 781-790. -/
def condCJK (l : List Char) : Bool := l.any isCJK

/-- Quadrant label keywords (lines 774-784). -/
def quadrantKw : Fin 4 → List Char
  | 0 => "quadrant-1".toList
  | 1 => "quadrant-2".toList
  | 2 => "quadrant-3".toList
  | 3 => "quadrant-4".toList

/-- Fixed quadrant placeholders (lines 774-784). -/
def quadrantRepl : Fin 4 → List Char
  | 0 => "quadrant-1 P1 High Priority".toList
  | 1 => "quadrant-2 P2 Plan".toList
  | 2 => "quadrant-3 P3 Later".toList
  | 3 => "quadrant-4 Low Priority".toList

/-- Per-line quadrant rewrites in source order (lines 773-790): the four
colon-form quadrant replaces, the four Chinese-form quadrant replaces, then
title, x-axis and y-axis. -/
def fixQuadLine (line : List Char) : List Char :=
  let l := rewriteKw (quadrantKw 0) condColon (quadrantRepl 0) line
  let l := rewriteKw (quadrantKw 1) condColon (quadrantRepl 1) l
  let l := rewriteKw (quadrantKw 2) condColon (quadrantRepl 2) l
  let l := rewriteKw (quadrantKw 3) condColon (quadrantRepl 3) l
  let l := rewriteKw (quadrantKw 0) condCJK (quadrantRepl 0) l
  let l := rewriteKw (quadrantKw 1) condCJK (quadrantRepl 1) l
  let l := rewriteKw (quadrantKw 2) condCJK (quadrantRepl 2) l
  let l := rewriteKw (quadrantKw 3) condCJK (quadrantRepl 3) l
  let l := rewriteKw ("title".toList) condCJK ("title Priority Matrix".toList) l
  let l := rewriteKw ("x-axis".toList) condCJK ("x-axis Low --> High".toList) l
  let l := rewriteKw ("y-axis".toList) condCJK ("y-axis Low --> High".toList) l
  l

/-- Split a line at its first colon. -/
def splitAtColon : List Char → Option (List Char × List Char)
  | [] => none
  | c :: rest =>
    if c = ':' then some ([], rest)
    else (splitAtColon rest).map (fun pr => (c :: pr.1, pr.2))

/-- After the colon of a data point: optional whitespace then an opening
bracket; yields the rest of the line after the bracket. -/
def matchWsBracket : List Char → Option (List Char)
  | [] => none
  | c :: rest =>
    if c = '[' then some rest
    else if c.isWhitespace then matchWsBracket rest
    else none

/-- Match of the Chinese data-point line pattern of lines 795-802: the text
before the line's first colon contains a Chinese character and the colon is
followed by optional whitespace and an opening bracket; yields the rest of
the line after the bracket. -/
def pointSplit (line : List Char) : Option (List Char) :=
  match splitAtColon line with
  | none => none
  | some (pre, post) => if pre.any isCJK then matchWsBracket post else none

def natChars (n : Nat) : List Char := (toString n).toList

/-- Replacement line for the n-th relabelled data point (line 800). -/
def reqLine (n : Nat) (tail : List Char) : List Char :=
  "    Req".toList ++ natChars n ++ ": [".toList ++ tail

/-- Sequential relabelling of Chinese-named data points (lines 793-802): the
counter starts at the given n and increments at each matching line, in line
order. -/
def relabelPoints : List (List Char) → Nat → List (List Char) × Nat
  | [], n => ([], n)
  | line :: rest, n =>
    match pointSplit line with
    | some tail =>
      let pr := relabelPoints rest (n + 1)
      (reqLine n tail :: pr.1, pr.2)
    | none =>
      let pr := relabelPoints rest n
      (line :: pr.1, pr.2)

def numChar (c : Char) : Bool := c.isDigit || c = '.'

def skipWS (l : List Char) : List Char := l.dropWhile Char.isWhitespace

/-- Tail of the valid-data-point pattern after its colon: optional whitespace,
an opening bracket, two number groups separated by a comma, a closing
bracket (pattern of line 805). -/
def matchBracketPart (l : List Char) : Bool :=
  match skipWS l with
  | '[' :: l1 =>
    (match skipWS l1 with
     | c :: l2 =>
       numChar c &&
         (match skipWS (l2.dropWhile numChar) with
          | ',' :: l3 =>
            (match skipWS l3 with
             | d :: l4 =>
               numChar d &&
                 (match skipWS (l4.dropWhile numChar) with
                  | ']' :: _ => true
                  | _ => false)
             | [] => false)
          | _ => false)
     | [] => false)
  | _ => false

/-- Continuation of the valid-point pattern: consume the word characters of
the name, then require a colon and the bracket part. -/
def matchWordColon : List Char → Bool
  | [] => false
  | c :: rest =>
    if isWordChar c then matchWordColon rest
    else if c = ':' then matchBracketPart rest
    else false

/-- Whole-text test of line 805: somewhere a word-character name followed by a
colon and a bracketed pair of numbers. -/
def hasValidPoint : List Char → Bool
  | [] => false
  | c :: rest => (isWordChar c && matchWordColon rest) || hasValidPoint rest

def splitLines : List Char → List (List Char)
  | [] => [[]]
  | c :: rest =>
    if c = '\n' then [] :: splitLines rest
    else
      match splitLines rest with
      | [] => [[c]]
      | l :: ls => (c :: l) :: ls

def joinLines : List (List Char) → List Char
  | [] => []
  | [l] => l
  | l :: rest => l ++ '\n' :: joinLines rest

/-- Synthetic default data point appended on line 807. -/
def sampleLine : List Char := "    Sample: [0.5, 0.5]".toList

/-- Quadrant-chart branch of the repair (lines 769-812): per-line label and
title rewrites, data-point relabelling with counter starting at 1, then the
default data point when no valid one remains. -/
def fixQuadrant (lines : List (List Char)) : List (List Char) :=
  let ls := lines.map fixQuadLine
  let ls := (relabelPoints ls 1).1
  if hasValidPoint (joinLines ls) then ls else ls ++ [sampleLine]

/-- Keyword followed by a whitespace character (the subgraph-with-whitespace
and flow-header patterns). -/
def kwThenWS (kw : List Char) (l : List Char) : Bool :=
  kw.isPrefixOf l &&
    (match l.drop kw.length with
     | c :: _ => c.isWhitespace
     | [] => false)

def hasFlowHeaderAux : Bool → List Char → Bool
  | _, [] => false
  | atStart, c :: rest =>
    (atStart &&
      (kwThenWS "graph".toList (c :: rest) || kwThenWS "flowchart".toList (c :: rest)))
      || hasFlowHeaderAux (c = '\n') rest

/-- Multiline test of line 815: some line starts with graph or flowchart
followed by a whitespace character. -/
def hasFlowHeader (l : List Char) : Bool := hasFlowHeaderAux true l

/-- Count of subgraph-open markers (line 819): occurrences of subgraph
followed by whitespace. -/
def countSubgraph : List Char → Nat
  | [] => 0
  | c :: rest => (if kwThenWS "subgraph".toList (c :: rest) then 1 else 0) + countSubgraph rest

/-- Word-boundary match of the word end at the head of l, with prev the
character just before (line 820). -/
def endWordAt (prev : Option Char) (l : List Char) : Bool :=
  (match prev with
   | none => true
   | some p => !isWordChar p) &&
  ("end".toList.isPrefixOf l &&
    (match l.drop 3 with
     | [] => true
     | d :: _ => !isWordChar d))

def countEndAux : Option Char → List Char → Nat
  | _, [] => 0
  | prev, c :: rest => (if endWordAt prev (c :: rest) then 1 else 0) + countEndAux (some c) rest

/-- Count of word-boundary occurrences of end (line 820). -/
def countEnd (l : List Char) : Nat := countEndAux none l

/-- The block appended for n missing closing markers (lines 822-825). -/
def endsBlock : Nat → List Char
  | 0 => []
  | n + 1 => "\n    end".toList ++ endsBlock n

/-- Structural repair of lines 819-826: append one end line per unclosed
subgraph. -/
def appendEnds (s : List Char) : List Char :=
  if countEnd s < countSubgraph s then s ++ endsBlock (countSubgraph s - countEnd s)
  else s

/-- Scan of the subgraph-identifier pattern after its Chinese first character:
characters other than bracket, quote and newline up to the opening bracket
(lines 830-837). -/
def scanToBracket : List Char → Option (List Char)
  | [] => none
  | c :: rest =>
    if c = '[' then some rest
    else if c = '"' || c = '\n' then none
    else scanToBracket rest

/-- Match of the Chinese subgraph-identifier pattern at the head of l; yields
the rest after the opening bracket. -/
def subMatchAt (l : List Char) : Option (List Char) :=
  if "subgraph".toList.isPrefixOf l then
    match l.drop 8 with
    | c :: rest =>
      if c.isWhitespace then
        match skipWS rest with
        | d :: rest2 => if isCJK d then scanToBracket rest2 else none
        | [] => none
      else none
    | [] => none
  else none

/-- Global replace of Chinese subgraph identifiers with SG plus a counter
(lines 829-837); the fuel argument bounds the scan by the text length, which
every step consumes. -/
def relabelSubAux : Nat → List Char → Nat → List Char
  | 0, l, _ => l
  | _ + 1, [], _ => []
  | fuel + 1, c :: rest, n =>
    match subMatchAt (c :: rest) with
    | some tail =>
      "subgraph SG".toList ++ natChars n ++ '[' :: relabelSubAux fuel tail (n + 1)
    | none => c :: relabelSubAux fuel rest n

def relabelSubgraphs (l : List Char) : List Char := relabelSubAux l.length l 1

/-- Scan of the Chinese node-identifier pattern: Chinese characters up to the
opening bracket (lines 841-848). -/
def nodeScan : List Char → Option (List Char)
  | [] => none
  | c :: rest =>
    if c = '[' then some rest
    else if isCJK c then nodeScan rest
    else none

/-- Match of the line-anchored Chinese node pattern: leading whitespace, a
non-empty run of Chinese characters, an opening bracket. -/
def nodeSplit (line : List Char) : Option (List Char) :=
  match skipWS line with
  | c :: rest => if isCJK c then nodeScan rest else none
  | [] => none

/-- Replacement line for the n-th relabelled node (line 846). -/
def nodeLine (n : Nat) (tail : List Char) : List Char :=
  "    N".toList ++ natChars n ++ '[' :: tail

/-- Sequential relabelling of Chinese node identifiers, one counter across all
lines (lines 840-848). -/
def relabelNodes : List (List Char) → Nat → List (List Char) × Nat
  | [], n => ([], n)
  | line :: rest, n =>
    match nodeSplit line with
    | some tail =>
      let pr := relabelNodes rest (n + 1)
      (nodeLine n tail :: pr.1, pr.2)
    | none =>
      let pr := relabelNodes rest n
      (line :: pr.1, pr.2)

/-- Flow/graph branch of the repair (lines 815-851): append missing end
markers, then relabel Chinese subgraph identifiers, then relabel Chinese
node identifiers. -/
def flowFix (s : List Char) : List Char :=
  let s1 := appendEnds s
  let s2 := relabelSubgraphs s1
  joinLines ((relabelNodes (splitLines s2) 1).1)

/-- Whole repair transform of renderMermaidCharts (lines 765-851): the
quadrant branch when the text mentions quadrantChart, then the flow branch
when a line starts with graph or flowchart. -/
def fixMermaidDefinition (s : List Char) : List Char :=
  let s1 :=
    if containsSeq ("quadrantChart".toList) s then joinLines (fixQuadrant (splitLines s))
    else s
  if hasFlowHeader s1 then flowFix s1 else s1

/-- Concrete flow diagram with two subgraph opens and no end markers. -/
def flowEx : List Char :=
  "graph TD\n    subgraph One\n    A[Go] --> B[Halt]\n    subgraph Two\n    C[x]".toList

/-- Concrete quadrant chart whose quadrant label is plain ASCII without a
colon and whose data point has a non-ASCII, non-Chinese name. -/
def quadEx : List Char :=
  "quadrantChart\n    quadrant-1 Keep\n    Café: [0.1, 0.2]".toList

/-- Family of quadrant charts with Chinese title, axis and quadrant labels and
one Chinese-named data point (the class of the idempotence claim). -/
def quadFamily (t xa ya q1 q2 q3 q4 nm : List Char) : List Char :=
  joinLines
    ["quadrantChart".toList,
     "    title ".toList ++ t,
     "    x-axis ".toList ++ xa,
     "    y-axis ".toList ++ ya,
     "    quadrant-1 ".toList ++ q1,
     "    quadrant-2 ".toList ++ q2,
     "    quadrant-3 ".toList ++ q3,
     "    quadrant-4 ".toList ++ q4,
     "    ".toList ++ nm ++ ": [0.3, 0.6]".toList]

/-- Repaired form of every member of the family. -/
def quadFamilyFixed : List Char :=
  ("quadrantChart\n    title Priority Matrix\n    x-axis Low --> High\n" ++
   "    y-axis Low --> High\n    quadrant-1 P1 High Priority\n" ++
   "    quadrant-2 P2 Plan\n    quadrant-3 P3 Later\n    quadrant-4 Low Priority\n" ++
   "    Req1: [0.3, 0.6]").toList

end DeepVision

namespace DeepVision

/-- Helper: when some dimension is incomplete, getNextIncompleteDimension
returns an incomplete dimension and every dimension strictly earlier in
canonical order is complete. -/
theorem nextIncomplete_spec (s : Session) (h : ∃ d, s.dimensions d < 100) :
    s.dimensions (getNextIncompleteDimension s) < 100 ∧
      ∀ d : Dimension, dimIndex d < dimIndex (getNextIncompleteDimension s) →
        100 ≤ s.dimensions d := by
  by_cases h1 : s.dimensions Dimension.customer_needs < 100
  · have hres : getNextIncompleteDimension s = Dimension.customer_needs := by
      simp [getNextIncompleteDimension, dimensionOrder, List.find?, h1]
    rw [hres]
    exact ⟨h1, by intro d hd; cases d <;> simp [dimIndex] at hd⟩
  · by_cases h2 : s.dimensions Dimension.business_process < 100
    · have hres : getNextIncompleteDimension s = Dimension.business_process := by
        simp [getNextIncompleteDimension, dimensionOrder, List.find?, h1, h2]
      rw [hres]
      refine ⟨h2, ?_⟩
      intro d hd
      cases d <;> simp [dimIndex] at hd
      omega
    · by_cases h3 : s.dimensions Dimension.tech_constraints < 100
      · have hres : getNextIncompleteDimension s = Dimension.tech_constraints := by
          simp [getNextIncompleteDimension, dimensionOrder, List.find?, h1, h2, h3]
        rw [hres]
        refine ⟨h3, ?_⟩
        intro d hd
        cases d <;> simp [dimIndex] at hd <;> omega
      · by_cases h4 : s.dimensions Dimension.project_constraints < 100
        · have hres : getNextIncompleteDimension s = Dimension.project_constraints := by
            simp [getNextIncompleteDimension, dimensionOrder, List.find?, h1, h2, h3, h4]
          rw [hres]
          refine ⟨h4, ?_⟩
          intro d hd
          cases d <;> simp [dimIndex] at hd <;> omega
        · obtain ⟨d, hd⟩ := h
          cases d <;> omega

/-- Helper: when every dimension is complete, getNextIncompleteDimension
falls back to the first dimension in canonical order. -/
theorem nextIncomplete_all (s : Session) (h : ∀ d : Dimension, 100 ≤ s.dimensions d) :
    getNextIncompleteDimension s = Dimension.customer_needs := by
  have h1 : ¬ s.dimensions Dimension.customer_needs < 100 := by
    have := h Dimension.customer_needs; omega
  have h2 : ¬ s.dimensions Dimension.business_process < 100 := by
    have := h Dimension.business_process; omega
  have h3 : ¬ s.dimensions Dimension.tech_constraints < 100 := by
    have := h Dimension.tech_constraints; omega
  have h4 : ¬ s.dimensions Dimension.project_constraints < 100 := by
    have := h Dimension.project_constraints; omega
  simp [getNextIncompleteDimension, dimensionOrder, List.find?, h1, h2, h3, h4]

/-- C1 (amended): getNextIncompleteDimension scans the canonical dimension
order from the beginning, independently of the currently active dimension,
and returns the first dimension whose coverage is below 100; when all four
coverages are at least 100 it returns the first dimension in canonical
order. -/
theorem C1_nextIncomplete_amended (s : Session) :
    ((∃ d, s.dimensions d < 100) →
      s.dimensions (getNextIncompleteDimension s) < 100 ∧
        ∀ d : Dimension, dimIndex d < dimIndex (getNextIncompleteDimension s) →
          100 ≤ s.dimensions d) ∧
    ((∀ d : Dimension, 100 ≤ s.dimensions d) →
      getNextIncompleteDimension s = Dimension.customer_needs) :=
  ⟨fun h => nextIncomplete_spec s h, fun h => nextIncomplete_all s h⟩

/-- C1 (counterexample): with customer_needs active and at coverage 50 while
business_process is also at 50, the code's getNextIncompleteDimension
returns customer_needs, not the business_process that the claimed
scan-after-current-with-wrap would return. -/
theorem C1_nextIncomplete_counterexample :
    getNextIncompleteDimension exLowSession = Dimension.customer_needs ∧
    specNextIncompleteDimension exLowSession Dimension.customer_needs =
      Dimension.business_process ∧
    getNextIncompleteDimension exLowSession ≠
      specNextIncompleteDimension exLowSession Dimension.customer_needs := by
  refine ⟨by decide, by decide, by decide⟩

/-- C1 (witness): the amended theorem applied at a concrete session. -/
theorem C1_nextIncomplete_amended_witness :
    exLowSession.dimensions (getNextIncompleteDimension exLowSession) < 100 :=
  ((C1_nextIncomplete_amended exLowSession).1
    ⟨Dimension.customer_needs, by decide⟩).1

/-- C2: a next-question call never mutates the session held by the caller (in
particular a failing one leaves it unchanged), and a submit call whose API
request fails (network or service error) leaves the session unchanged:
interview log and all coverage values are exactly as before. -/
theorem C2_failure_preserves_session :
    (∀ (st : ClientState) (resps : List FetchResponse),
        (fetchNextQuestion st resps).currentSession = st.currentSession) ∧
    (∀ (st : ClientState) (e : ApiError) (resps : List FetchResponse),
        (submitAnswer st (Except.error e) resps).currentSession = st.currentSession) := by
  have hfetch : ∀ (resps : List FetchResponse) (st : ClientState),
      (fetchNextQuestion st resps).currentSession = st.currentSession := by
    intro resps
    induction resps with
    | nil =>
      intro st
      simp [fetchNextQuestion, finishFetch]
    | cons resp rest ih =>
      intro st
      cases resp with
      | network => simp [fetchNextQuestion, finishFetch]
      | serviceFailure title detail => simp [fetchNextQuestion, finishFetch]
      | completed =>
        simp only [fetchNextQuestion]
        cases hnd : nextDimAfter st.currentSession st.currentDimension with
        | none => simp [finishFetch]
        | some dim => simp [ih]
      | question p => simp [fetchNextQuestion, finishFetch]
  refine ⟨fun st resps => hfetch resps st, ?_⟩
  intro st e resps
  by_cases h : canSubmitAnswer st = false <;> simp [submitAnswer, h]

/-- C3: multi-select composition joins the selected options, in order, with
the full-width semicolon, appending the trimmed other-text last exactly when
the other option is selected and its trimmed text is non-empty; in
particular selections A, B with other-text C compose to A；B；C. -/
theorem C3_multi_select_compose (sel : List String) (ot : String) (_hsel : sel ≠ []) :
    composeAnswer true sel true ot =
      String.intercalate "；"
        (sel ++ (if jsTrim ot = "" then [] else [jsTrim ot])) ∧
    composeAnswer true sel false ot = String.intercalate "；" sel ∧
    composeAnswer true ["A", "B"] true "C" = "A；B；C" := by
  refine ⟨?_, ?_, by decide⟩
  · by_cases h : jsTrim ot = "" <;> simp [composeAnswer, h]
  · simp [composeAnswer]

/-- C3 (witness): the composition theorem applied at the concrete input of
the claim. -/
theorem C3_multi_select_compose_witness :
    composeAnswer true ["A", "B"] true "C" = "A；B；C" :=
  (C3_multi_select_compose ["A", "B"] "C" (by decide)).2.2

/-- C4: in single-select mode, when the other option is selected submission
passes validation only with non-empty trimmed custom text (an empty one
fails validation and submitAnswer does nothing) and the composed answer is
the trimmed custom text; when the other option is not selected the composed
answer is the single selected option. -/
theorem C4_single_select_other (st : ClientState)
    (hms : st.currentQuestion.multiSelect = false) :
    (st.otherSelected = true →
      (canSubmitAnswer st = true → jsTrim st.otherAnswerText ≠ "") ∧
      (jsTrim st.otherAnswerText = "" →
        canSubmitAnswer st = false ∧
          ∀ (r : Except ApiError Session) (resps : List FetchResponse),
            submitAnswer st r resps = st) ∧
      composeAnswer false st.selectedAnswers true st.otherAnswerText =
        jsTrim st.otherAnswerText) ∧
    (∀ opt : String, st.selectedAnswers = [opt] →
      composeAnswer false [opt] false st.otherAnswerText = opt) := by
  constructor
  · intro hos
    refine ⟨?_, ?_, by simp [composeAnswer]⟩
    · intro hcan htrim
      simp [canSubmitAnswer, hms, hos, htrim] at hcan
    · intro htrim
      have hcan : canSubmitAnswer st = false := by
        simp [canSubmitAnswer, hms, hos, htrim]
      exact ⟨hcan, fun r resps => by simp [submitAnswer, hcan]⟩
  · intro opt hopt
    simp [composeAnswer]

/-- C4 (witness): the single-select theorem applied at a concrete state. -/
theorem C4_single_select_other_witness :
    composeAnswer false ["A"] false exState.otherAnswerText = "A" :=
  (C4_single_select_other exState rfl).2 "A" rfl

/-- C5: for coverage values in 0..100 the overall progress is exactly the
arithmetic mean of the four coverages rounded to nearest (half up), and it
lies in 0..100. -/
theorem C5_total_progress (s : Session) (h : ∀ d : Dimension, s.dimensions d ≤ 100) :
    getTotalProgress s = (sumCoverage s + 2) / 4 ∧
    4 * getTotalProgress s ≤ sumCoverage s + 2 ∧
    sumCoverage s ≤ 4 * getTotalProgress s + 2 ∧
    getTotalProgress s ≤ 100 := by
  have ha := h Dimension.customer_needs
  have hb := h Dimension.business_process
  have hc := h Dimension.tech_constraints
  have hd := h Dimension.project_constraints
  have hsum : sumCoverage s =
      s.dimensions Dimension.customer_needs + s.dimensions Dimension.business_process +
        s.dimensions Dimension.tech_constraints + s.dimensions Dimension.project_constraints := by
    simp [sumCoverage, dimensionOrder]
  unfold getTotalProgress
  omega

/-- C5 (witness): the progress theorem applied at a concrete session; its mean
(10 + 20 + 30 + 45) / 4 = 26.25 rounds to 26. -/
theorem C5_total_progress_witness :
    getTotalProgress exMidSession = (sumCoverage exMidSession + 2) / 4 :=
  (C5_total_progress exMidSession (by intro d; cases d <;> decide)).1

/-- C6: while some dimension has coverage below 100, getNextIncompleteDimension
never returns a dimension whose coverage is at least 100. -/
theorem C6_nextIncomplete_never_complete (s : Session)
    (h : ∃ d, s.dimensions d < 100) :
    s.dimensions (getNextIncompleteDimension s) < 100 :=
  (nextIncomplete_spec s h).1

/-- C6 (witness): applied at a concrete session. -/
theorem C6_nextIncomplete_never_complete_witness :
    exLowSession.dimensions (getNextIncompleteDimension exLowSession) < 100 :=
  C6_nextIncomplete_never_complete exLowSession ⟨Dimension.customer_needs, by decide⟩

/-- C10: after any non-empty sequence of toggleOption and toggleOther calls in
single-select mode, either exactly one option is selected with the other
flag clear and empty other-text, or the other flag is set and no option is
selected. -/
theorem C10_single_select_toggle_invariant (st : ClientState) (calls : List ToggleCall)
    (hms : st.currentQuestion.multiSelect = false) (hne : calls ≠ []) :
    (∃ opt, (applyToggles st calls).selectedAnswers = [opt] ∧
      (applyToggles st calls).otherSelected = false ∧
      (applyToggles st calls).otherAnswerText = "") ∨
    ((applyToggles st calls).otherSelected = true ∧
      (applyToggles st calls).selectedAnswers = []) := by
  induction calls generalizing st with
  | nil => exact absurd rfl hne
  | cons c rest ih =>
    have hstep : applyToggles st (c :: rest) = applyToggles (applyToggle st c) rest := by
      simp [applyToggles]
    rw [hstep]
    cases rest with
    | nil =>
      cases c with
      | option opt =>
        exact Or.inl ⟨opt, by simp [applyToggles, applyToggle, toggleOption, hms]⟩
      | other =>
        exact Or.inr (by simp [applyToggles, applyToggle, toggleOther, hms])
    | cons c2 r2 =>
      have hms2 : (applyToggle st c).currentQuestion.multiSelect = false := by
        cases c <;> simp [applyToggle, toggleOption, toggleOther, hms]
      exact ih (applyToggle st c) hms2 (by simp)

/-- Helper: a character of a blank prefix is never the head of a
non-whitespace keyword. -/
theorem blank_not_mem (ind : List Char) (k : Char) (hind : ∀ c ∈ ind, c = ' ')
    (hk : k.isWhitespace = false) : k ∉ ind := by
  intro hmem
  have h := hind k hmem
  rw [h] at hk
  exact absurd hk (by decide)

/-- Helper: the line rewrite passes over a prefix that does not contain the
keyword's first character. -/
theorem rewriteKw_append_of_head_notin (k : Char) (ks : List Char)
    (cond : List Char → Bool) (repl : List Char) (pre l : List Char) :
    k ∉ pre →
    rewriteKw (k :: ks) cond repl (pre ++ l) = pre ++ rewriteKw (k :: ks) cond repl l := by
  induction pre with
  | nil => intro _; simp
  | cons c rest ih =>
    intro hpre
    have hne : (k == c) = false := by
      rw [beq_eq_false_iff_ne]
      intro h
      exact hpre (by simp [h])
    have hmatch : kwMatchAt (k :: ks) cond (c :: (rest ++ l)) = false := by
      simp [kwMatchAt, List.isPrefixOf, hne]
    have hrest : k ∉ rest := fun h => hpre (List.mem_cons_of_mem c h)
    calc rewriteKw (k :: ks) cond repl ((c :: rest) ++ l)
        = c :: rewriteKw (k :: ks) cond repl (rest ++ l) := by
          simp [rewriteKw, hmatch]
      _ = c :: (rest ++ rewriteKw (k :: ks) cond repl l) := by rw [ih hrest]
      _ = (c :: rest) ++ rewriteKw (k :: ks) cond repl l := rfl

/-- Helper: a keyword blocked inside a segment matches no extension of it. -/
theorem kwBlockedBy_spec : ∀ (kw suf : List Char), kwBlockedBy kw suf = true →
    ∀ X : List Char, kw.isPrefixOf (suf ++ X) = false := by
  intro kw
  induction kw with
  | nil => intro suf h X; simp [kwBlockedBy] at h
  | cons k ks ih =>
    intro suf h X
    cases suf with
    | nil => simp [kwBlockedBy] at h
    | cons c cs =>
      simp only [kwBlockedBy, Bool.or_eq_true] at h
      rcases h with h | h
      · have hne : (k == c) = false := by simpa [bne] using h
        simp [List.isPrefixOf, hne]
      · simp [List.isPrefixOf, ih cs h X]

/-- Helper: a keyword with no occurrence in the text rewrites nothing. -/
theorem rewriteKw_of_not_contains (kw : List Char) (cond : List Char → Bool)
    (repl : List Char) :
    ∀ l : List Char, containsSeq kw l = false → rewriteKw kw cond repl l = l := by
  intro l
  induction l with
  | nil => intro _; rfl
  | cons c rest ih =>
    intro h
    simp only [containsSeq, Bool.or_eq_false_iff] at h
    obtain ⟨h1, h2⟩ := h
    have hm : kwMatchAt kw cond (c :: rest) = false := by simp [kwMatchAt, h1]
    simp [rewriteKw, hm, ih h2]

/-- Helper: if a pattern does not occur then no pattern extending it occurs. -/
theorem containsSeq_extend (kw kw2 : List Char) (hpre : kw.isPrefixOf kw2 = true) :
    ∀ l : List Char, containsSeq kw l = false → containsSeq kw2 l = false := by
  intro l
  induction l with
  | nil =>
    intro h
    cases kw2 with
    | cons b bs => simp [containsSeq]
    | nil =>
      cases kw with
      | nil => simp [containsSeq] at h
      | cons a as => simp [List.isPrefixOf] at hpre
  | cons c rest ih =>
    intro h
    simp only [containsSeq, Bool.or_eq_false_iff] at h
    obtain ⟨h1, h2⟩ := h
    have g1 : kw2.isPrefixOf (c :: rest) = false := by
      cases hcon : kw2.isPrefixOf (c :: rest) with
      | false => rfl
      | true =>
        rw [List.isPrefixOf_iff_prefix] at hcon
        have hp : kw <+: kw2 := List.isPrefixOf_iff_prefix.mp hpre
        have : kw <+: c :: rest := hp.trans hcon
        rw [← List.isPrefixOf_iff_prefix] at this
        simp [h1] at this
    simp [containsSeq, g1, ih h2]

/-- Helper: the line rewrite passes over a segment inside which the keyword is
blocked everywhere. -/
theorem rewriteKw_skip_blocked (kw : List Char) (cond : List Char → Bool) (repl : List Char) :
    ∀ (pre l : List Char),
      pre.tails.all (fun suf => suf.isEmpty || kwBlockedBy kw suf) = true →
      rewriteKw kw cond repl (pre ++ l) = pre ++ rewriteKw kw cond repl l := by
  intro pre
  induction pre with
  | nil => intro l _; simp
  | cons c rest ih =>
    intro l h
    rw [List.tails_cons, List.all_cons, Bool.and_eq_true] at h
    obtain ⟨h1, h2⟩ := h
    have h1' : kwBlockedBy kw (c :: rest) = true := by
      rcases (Bool.or_eq_true _ _).mp h1 with hx | hx
      · simp at hx
      · exact hx
    have hpf : kw.isPrefixOf (c :: (rest ++ l)) = false := by
      have hx := kwBlockedBy_spec kw (c :: rest) h1' l
      simpa using hx
    have hm : kwMatchAt kw cond (c :: (rest ++ l)) = false := by
      simp [kwMatchAt, hpf]
    calc rewriteKw kw cond repl ((c :: rest) ++ l)
        = c :: rewriteKw kw cond repl (rest ++ l) := by simp [rewriteKw, hm]
      _ = c :: (rest ++ rewriteKw kw cond repl l) := by rw [ih l h2]
      _ = (c :: rest) ++ rewriteKw kw cond repl l := rfl

/-- Helper: the line rewrite passes over a whitespace character followed by
text free of the keyword. -/
theorem rewriteKw_ws_cons (k : Char) (ks : List Char) (cond : List Char → Bool)
    (repl : List Char) (wc : Char) (body : List Char)
    (hk : k.isWhitespace = false) (hwc : wc.isWhitespace = true)
    (hbody : containsSeq (k :: ks) body = false) :
    rewriteKw (k :: ks) cond repl (wc :: body) = wc :: body := by
  have hne : (k == wc) = false := by
    rw [beq_eq_false_iff_ne]
    intro h
    subst h
    rw [hwc] at hk
    exact Bool.noConfusion hk
  have hm : kwMatchAt (k :: ks) cond (wc :: body) = false := by
    simp [kwMatchAt, List.isPrefixOf, hne]
  simp [rewriteKw, hm, rewriteKw_of_not_contains (k :: ks) cond repl body hbody]

/-- Helper: the rewrite fires when the text starts with the keyword, a
whitespace character and a tail satisfying the stage condition, replacing
the whole match. -/
theorem rewriteKw_fires_at (kw : List Char) (cond : List Char → Bool) (repl : List Char)
    (wc : Char) (body : List Char)
    (hkw : kw ≠ []) (hwc : wc.isWhitespace = true) (hcond : cond body = true) :
    rewriteKw kw cond repl (kw ++ wc :: body) = repl := by
  have hpf : kw.isPrefixOf (kw ++ wc :: body) = true := by
    rw [List.isPrefixOf_iff_prefix]
    exact List.prefix_append kw _
  have hdrop : (kw ++ wc :: body).drop kw.length = wc :: body := List.drop_left kw _
  have hm : kwMatchAt kw cond (kw ++ wc :: body) = true := by
    simp only [kwMatchAt, hdrop]
    simp [hpf, hwc, hcond]
  cases kw with
  | nil => exact absurd rfl hkw
  | cons k ks =>
    have hm' : kwMatchAt (k :: ks) cond (k :: (ks ++ wc :: body)) = true := by
      simpa using hm
    simp [rewriteKw, hm']

/-- Helper: a full stage is the identity on a line made of a blank indent, a
segment blocking the keyword, a whitespace character and a keyword-free
body. -/
theorem rewriteKw_skip_line (kw : List Char) (k : Char) (ks : List Char) (hkw : kw = k :: ks)
    (cond : List Char → Bool) (repl : List Char)
    (ind seg : List Char) (wc : Char) (body : List Char)
    (hk : k.isWhitespace = false)
    (hind : ∀ c ∈ ind, c = ' ')
    (hblock : seg.tails.all (fun suf => suf.isEmpty || kwBlockedBy kw suf) = true)
    (hwc : wc.isWhitespace = true)
    (hbody : containsSeq kw body = false) :
    rewriteKw kw cond repl (ind ++ seg ++ wc :: body) = ind ++ seg ++ wc :: body := by
  subst hkw
  have hknotin : k ∉ ind := blank_not_mem ind k hind hk
  rw [List.append_assoc,
      rewriteKw_append_of_head_notin k ks cond repl ind (seg ++ wc :: body) hknotin,
      rewriteKw_skip_blocked (k :: ks) cond repl seg (wc :: body) hblock,
      rewriteKw_ws_cons k ks cond repl wc body hk hwc hbody]

/-- Helper: a stage whose keyword heads the statement but whose condition
fails on the body is the identity on the line. -/
theorem rewriteKw_self_cond_false (kw : List Char) (k : Char) (ks : List Char)
    (hkw : kw = k :: ks)
    (cond : List Char → Bool) (repl : List Char)
    (ind : List Char) (wc : Char) (body : List Char)
    (hk : k.isWhitespace = false)
    (hind : ∀ c ∈ ind, c = ' ')
    (hblock : ks.tails.all (fun suf => suf.isEmpty || kwBlockedBy kw suf) = true)
    (hwc : wc.isWhitespace = true)
    (hcond : cond body = false)
    (hbody : containsSeq kw body = false) :
    rewriteKw kw cond repl (ind ++ kw ++ wc :: body) = ind ++ kw ++ wc :: body := by
  subst hkw
  have hknotin : k ∉ ind := blank_not_mem ind k hind hk
  have hdrop : ((k :: ks) ++ wc :: body).drop (k :: ks).length = wc :: body :=
    List.drop_left _ _
  have hm : kwMatchAt (k :: ks) cond ((k :: ks) ++ wc :: body) = false := by
    simp only [kwMatchAt, hdrop]
    simp [hcond]
  have hm' : kwMatchAt (k :: ks) cond (k :: (ks ++ wc :: body)) = false := by
    simpa using hm
  rw [List.append_assoc, rewriteKw_append_of_head_notin k ks cond repl ind _ hknotin]
  have hstep : rewriteKw (k :: ks) cond repl ((k :: ks) ++ wc :: body)
      = k :: rewriteKw (k :: ks) cond repl (ks ++ wc :: body) := by
    simp [rewriteKw, hm']
  rw [hstep, rewriteKw_skip_blocked (k :: ks) cond repl ks (wc :: body) hblock,
      rewriteKw_ws_cons k ks cond repl wc body hk hwc hbody]
  rfl

/-- Helper: a stage whose keyword heads the statement and whose condition
holds on the body rewrites the statement to the indent plus the
replacement. -/
theorem rewriteKw_fire_line (kw : List Char) (k : Char) (ks : List Char) (hkw : kw = k :: ks)
    (cond : List Char → Bool) (repl : List Char)
    (ind : List Char) (wc : Char) (body : List Char)
    (hk : k.isWhitespace = false)
    (hind : ∀ c ∈ ind, c = ' ')
    (hwc : wc.isWhitespace = true)
    (hcond : cond body = true) :
    rewriteKw kw cond repl (ind ++ kw ++ wc :: body) = ind ++ repl := by
  subst hkw
  have hknotin : k ∉ ind := blank_not_mem ind k hind hk
  rw [List.append_assoc,
      rewriteKw_append_of_head_notin k ks cond repl ind _ hknotin,
      rewriteKw_fires_at (k :: ks) cond repl wc body (List.cons_ne_nil k ks) hwc hcond]

/-- Helper: a stage is the identity on a blank indent followed by text on
which it is computed to be the identity. -/
theorem rewriteKw_blank_concrete (kw : List Char) (k : Char) (ks : List Char)
    (hkw : kw = k :: ks)
    (cond : List Char → Bool) (repl : List Char)
    (ind rest : List Char)
    (hk : k.isWhitespace = false)
    (hind : ∀ c ∈ ind, c = ' ')
    (hrest : rewriteKw kw cond repl rest = rest) :
    rewriteKw kw cond repl (ind ++ rest) = ind ++ rest := by
  subst hkw
  have hknotin : k ∉ ind := blank_not_mem ind k hind hk
  rw [rewriteKw_append_of_head_notin k ks cond repl ind rest hknotin, hrest]

/-- Helper: definitional unfolding of the eleven line rewrites. -/
theorem fixQuadLine_unfold (line : List Char) :
    fixQuadLine line =
      rewriteKw ("y-axis".toList) condCJK ("y-axis Low --> High".toList)
        (rewriteKw ("x-axis".toList) condCJK ("x-axis Low --> High".toList)
          (rewriteKw ("title".toList) condCJK ("title Priority Matrix".toList)
            (rewriteKw (quadrantKw 3) condCJK (quadrantRepl 3)
              (rewriteKw (quadrantKw 2) condCJK (quadrantRepl 2)
                (rewriteKw (quadrantKw 1) condCJK (quadrantRepl 1)
                  (rewriteKw (quadrantKw 0) condCJK (quadrantRepl 0)
                    (rewriteKw (quadrantKw 3) condColon (quadrantRepl 3)
                      (rewriteKw (quadrantKw 2) condColon (quadrantRepl 2)
                        (rewriteKw (quadrantKw 1) condColon (quadrantRepl 1)
                          (rewriteKw (quadrantKw 0) condColon (quadrantRepl 0)
                            line)))))))))) := rfl

/-- Helper: a quadrant-label statement whose body contains a colon or Chinese
text (and no other directive keyword) is rewritten to its indent followed by
the fixed placeholder. -/
theorem fixQuadLine_quadrant_label (i : Fin 4) (ind : List Char) (wc : Char) (body : List Char)
    (hind : ∀ c ∈ ind, c = ' ')
    (hwc : wc.isWhitespace = true)
    (hq : containsSeq ("quadrant-".toList) body = false)
    (hfire : condColon body = true ∨ condCJK body = true) :
    fixQuadLine (ind ++ quadrantKw i ++ wc :: body) = ind ++ quadrantRepl i := by
  have hq1 : containsSeq (quadrantKw 0) body = false :=
    containsSeq_extend ("quadrant-".toList) (quadrantKw 0) (by decide) body hq
  have hq2 : containsSeq (quadrantKw 1) body = false :=
    containsSeq_extend ("quadrant-".toList) (quadrantKw 1) (by decide) body hq
  have hq3 : containsSeq (quadrantKw 2) body = false :=
    containsSeq_extend ("quadrant-".toList) (quadrantKw 2) (by decide) body hq
  have hq4 : containsSeq (quadrantKw 3) body = false :=
    containsSeq_extend ("quadrant-".toList) (quadrantKw 3) (by decide) body hq
  by_cases hcolon : condColon body = true
  · fin_cases i
    · show fixQuadLine (ind ++ (quadrantKw 0) ++ wc :: body) = ind ++ (quadrantRepl 0)
      rw [fixQuadLine_unfold]
      rw [rewriteKw_fire_line (quadrantKw 0) 'q' ("uadrant-1".toList) rfl condColon (quadrantRepl 0) ind wc body
            (by decide) hind hwc hcolon]
      rw [rewriteKw_blank_concrete (quadrantKw 1) 'q' ("uadrant-2".toList) rfl condColon (quadrantRepl 1) ind (quadrantRepl 0)
            (by decide) hind (by decide)]
      rw [rewriteKw_blank_concrete (quadrantKw 2) 'q' ("uadrant-3".toList) rfl condColon (quadrantRepl 2) ind (quadrantRepl 0)
            (by decide) hind (by decide)]
      rw [rewriteKw_blank_concrete (quadrantKw 3) 'q' ("uadrant-4".toList) rfl condColon (quadrantRepl 3) ind (quadrantRepl 0)
            (by decide) hind (by decide)]
      rw [rewriteKw_blank_concrete (quadrantKw 0) 'q' ("uadrant-1".toList) rfl condCJK (quadrantRepl 0) ind (quadrantRepl 0)
            (by decide) hind (by decide)]
      rw [rewriteKw_blank_concrete (quadrantKw 1) 'q' ("uadrant-2".toList) rfl condCJK (quadrantRepl 1) ind (quadrantRepl 0)
            (by decide) hind (by decide)]
      rw [rewriteKw_blank_concrete (quadrantKw 2) 'q' ("uadrant-3".toList) rfl condCJK (quadrantRepl 2) ind (quadrantRepl 0)
            (by decide) hind (by decide)]
      rw [rewriteKw_blank_concrete (quadrantKw 3) 'q' ("uadrant-4".toList) rfl condCJK (quadrantRepl 3) ind (quadrantRepl 0)
            (by decide) hind (by decide)]
      rw [rewriteKw_blank_concrete ("title".toList) 't' ("itle".toList) rfl condCJK ("title Priority Matrix".toList) ind (quadrantRepl 0)
            (by decide) hind (by decide)]
      rw [rewriteKw_blank_concrete ("x-axis".toList) 'x' ("-axis".toList) rfl condCJK ("x-axis Low --> High".toList) ind (quadrantRepl 0)
            (by decide) hind (by decide)]
      rw [rewriteKw_blank_concrete ("y-axis".toList) 'y' ("-axis".toList) rfl condCJK ("y-axis Low --> High".toList) ind (quadrantRepl 0)
            (by decide) hind (by decide)]
    · show fixQuadLine (ind ++ (quadrantKw 1) ++ wc :: body) = ind ++ (quadrantRepl 1)
      rw [fixQuadLine_unfold]
      rw [rewriteKw_skip_line (quadrantKw 0) 'q' ("uadrant-1".toList) rfl condColon (quadrantRepl 0) ind (quadrantKw 1) wc body
            (by decide) hind (by decide) hwc hq1]
      rw [rewriteKw_fire_line (quadrantKw 1) 'q' ("uadrant-2".toList) rfl condColon (quadrantRepl 1) ind wc body
            (by decide) hind hwc hcolon]
      rw [rewriteKw_blank_concrete (quadrantKw 2) 'q' ("uadrant-3".toList) rfl condColon (quadrantRepl 2) ind (quadrantRepl 1)
            (by decide) hind (by decide)]
      rw [rewriteKw_blank_concrete (quadrantKw 3) 'q' ("uadrant-4".toList) rfl condColon (quadrantRepl 3) ind (quadrantRepl 1)
            (by decide) hind (by decide)]
      rw [rewriteKw_blank_concrete (quadrantKw 0) 'q' ("uadrant-1".toList) rfl condCJK (quadrantRepl 0) ind (quadrantRepl 1)
            (by decide) hind (by decide)]
      rw [rewriteKw_blank_concrete (quadrantKw 1) 'q' ("uadrant-2".toList) rfl condCJK (quadrantRepl 1) ind (quadrantRepl 1)
            (by decide) hind (by decide)]
      rw [rewriteKw_blank_concrete (quadrantKw 2) 'q' ("uadrant-3".toList) rfl condCJK (quadrantRepl 2) ind (quadrantRepl 1)
            (by decide) hind (by decide)]
      rw [rewriteKw_blank_concrete (quadrantKw 3) 'q' ("uadrant-4".toList) rfl condCJK (quadrantRepl 3) ind (quadrantRepl 1)
            (by decide) hind (by decide)]
      rw [rewriteKw_blank_concrete ("title".toList) 't' ("itle".toList) rfl condCJK ("title Priority Matrix".toList) ind (quadrantRepl 1)
            (by decide) hind (by decide)]
      rw [rewriteKw_blank_concrete ("x-axis".toList) 'x' ("-axis".toList) rfl condCJK ("x-axis Low --> High".toList) ind (quadrantRepl 1)
            (by decide) hind (by decide)]
      rw [rewriteKw_blank_concrete ("y-axis".toList) 'y' ("-axis".toList) rfl condCJK ("y-axis Low --> High".toList) ind (quadrantRepl 1)
            (by decide) hind (by decide)]
    · show fixQuadLine (ind ++ (quadrantKw 2) ++ wc :: body) = ind ++ (quadrantRepl 2)
      rw [fixQuadLine_unfold]
      rw [rewriteKw_skip_line (quadrantKw 0) 'q' ("uadrant-1".toList) rfl condColon (quadrantRepl 0) ind (quadrantKw 2) wc body
            (by decide) hind (by decide) hwc hq1]
      rw [rewriteKw_skip_line (quadrantKw 1) 'q' ("uadrant-2".toList) rfl condColon (quadrantRepl 1) ind (quadrantKw 2) wc body
            (by decide) hind (by decide) hwc hq2]
      rw [rewriteKw_fire_line (quadrantKw 2) 'q' ("uadrant-3".toList) rfl condColon (quadrantRepl 2) ind wc body
            (by decide) hind hwc hcolon]
      rw [rewriteKw_blank_concrete (quadrantKw 3) 'q' ("uadrant-4".toList) rfl condColon (quadrantRepl 3) ind (quadrantRepl 2)
            (by decide) hind (by decide)]
      rw [rewriteKw_blank_concrete (quadrantKw 0) 'q' ("uadrant-1".toList) rfl condCJK (quadrantRepl 0) ind (quadrantRepl 2)
            (by decide) hind (by decide)]
      rw [rewriteKw_blank_concrete (quadrantKw 1) 'q' ("uadrant-2".toList) rfl condCJK (quadrantRepl 1) ind (quadrantRepl 2)
            (by decide) hind (by decide)]
      rw [rewriteKw_blank_concrete (quadrantKw 2) 'q' ("uadrant-3".toList) rfl condCJK (quadrantRepl 2) ind (quadrantRepl 2)
            (by decide) hind (by decide)]
      rw [rewriteKw_blank_concrete (quadrantKw 3) 'q' ("uadrant-4".toList) rfl condCJK (quadrantRepl 3) ind (quadrantRepl 2)
            (by decide) hind (by decide)]
      rw [rewriteKw_blank_concrete ("title".toList) 't' ("itle".toList) rfl condCJK ("title Priority Matrix".toList) ind (quadrantRepl 2)
            (by decide) hind (by decide)]
      rw [rewriteKw_blank_concrete ("x-axis".toList) 'x' ("-axis".toList) rfl condCJK ("x-axis Low --> High".toList) ind (quadrantRepl 2)
            (by decide) hind (by decide)]
      rw [rewriteKw_blank_concrete ("y-axis".toList) 'y' ("-axis".toList) rfl condCJK ("y-axis Low --> High".toList) ind (quadrantRepl 2)
            (by decide) hind (by decide)]
    · show fixQuadLine (ind ++ (quadrantKw 3) ++ wc :: body) = ind ++ (quadrantRepl 3)
      rw [fixQuadLine_unfold]
      rw [rewriteKw_skip_line (quadrantKw 0) 'q' ("uadrant-1".toList) rfl condColon (quadrantRepl 0) ind (quadrantKw 3) wc body
            (by decide) hind (by decide) hwc hq1]
      rw [rewriteKw_skip_line (quadrantKw 1) 'q' ("uadrant-2".toList) rfl condColon (quadrantRepl 1) ind (quadrantKw 3) wc body
            (by decide) hind (by decide) hwc hq2]
      rw [rewriteKw_skip_line (quadrantKw 2) 'q' ("uadrant-3".toList) rfl condColon (quadrantRepl 2) ind (quadrantKw 3) wc body
            (by decide) hind (by decide) hwc hq3]
      rw [rewriteKw_fire_line (quadrantKw 3) 'q' ("uadrant-4".toList) rfl condColon (quadrantRepl 3) ind wc body
            (by decide) hind hwc hcolon]
      rw [rewriteKw_blank_concrete (quadrantKw 0) 'q' ("uadrant-1".toList) rfl condCJK (quadrantRepl 0) ind (quadrantRepl 3)
            (by decide) hind (by decide)]
      rw [rewriteKw_blank_concrete (quadrantKw 1) 'q' ("uadrant-2".toList) rfl condCJK (quadrantRepl 1) ind (quadrantRepl 3)
            (by decide) hind (by decide)]
      rw [rewriteKw_blank_concrete (quadrantKw 2) 'q' ("uadrant-3".toList) rfl condCJK (quadrantRepl 2) ind (quadrantRepl 3)
            (by decide) hind (by decide)]
      rw [rewriteKw_blank_concrete (quadrantKw 3) 'q' ("uadrant-4".toList) rfl condCJK (quadrantRepl 3) ind (quadrantRepl 3)
            (by decide) hind (by decide)]
      rw [rewriteKw_blank_concrete ("title".toList) 't' ("itle".toList) rfl condCJK ("title Priority Matrix".toList) ind (quadrantRepl 3)
            (by decide) hind (by decide)]
      rw [rewriteKw_blank_concrete ("x-axis".toList) 'x' ("-axis".toList) rfl condCJK ("x-axis Low --> High".toList) ind (quadrantRepl 3)
            (by decide) hind (by decide)]
      rw [rewriteKw_blank_concrete ("y-axis".toList) 'y' ("-axis".toList) rfl condCJK ("y-axis Low --> High".toList) ind (quadrantRepl 3)
            (by decide) hind (by decide)]
  · have hcjk : condCJK body = true := by
      rcases hfire with h | h
      · exact absurd h hcolon
      · exact h
    have hcolon2 : condColon body = false := by
      cases h : condColon body with
      | false => rfl
      | true => exact absurd h hcolon
    fin_cases i
    · show fixQuadLine (ind ++ (quadrantKw 0) ++ wc :: body) = ind ++ (quadrantRepl 0)
      rw [fixQuadLine_unfold]
      rw [rewriteKw_self_cond_false (quadrantKw 0) 'q' ("uadrant-1".toList) rfl condColon (quadrantRepl 0) ind wc body
            (by decide) hind (by decide) hwc hcolon2 hq1]
      rw [rewriteKw_skip_line (quadrantKw 1) 'q' ("uadrant-2".toList) rfl condColon (quadrantRepl 1) ind (quadrantKw 0) wc body
            (by decide) hind (by decide) hwc hq2]
      rw [rewriteKw_skip_line (quadrantKw 2) 'q' ("uadrant-3".toList) rfl condColon (quadrantRepl 2) ind (quadrantKw 0) wc body
            (by decide) hind (by decide) hwc hq3]
      rw [rewriteKw_skip_line (quadrantKw 3) 'q' ("uadrant-4".toList) rfl condColon (quadrantRepl 3) ind (quadrantKw 0) wc body
            (by decide) hind (by decide) hwc hq4]
      rw [rewriteKw_fire_line (quadrantKw 0) 'q' ("uadrant-1".toList) rfl condCJK (quadrantRepl 0) ind wc body
            (by decide) hind hwc hcjk]
      rw [rewriteKw_blank_concrete (quadrantKw 1) 'q' ("uadrant-2".toList) rfl condCJK (quadrantRepl 1) ind (quadrantRepl 0)
            (by decide) hind (by decide)]
      rw [rewriteKw_blank_concrete (quadrantKw 2) 'q' ("uadrant-3".toList) rfl condCJK (quadrantRepl 2) ind (quadrantRepl 0)
            (by decide) hind (by decide)]
      rw [rewriteKw_blank_concrete (quadrantKw 3) 'q' ("uadrant-4".toList) rfl condCJK (quadrantRepl 3) ind (quadrantRepl 0)
            (by decide) hind (by decide)]
      rw [rewriteKw_blank_concrete ("title".toList) 't' ("itle".toList) rfl condCJK ("title Priority Matrix".toList) ind (quadrantRepl 0)
            (by decide) hind (by decide)]
      rw [rewriteKw_blank_concrete ("x-axis".toList) 'x' ("-axis".toList) rfl condCJK ("x-axis Low --> High".toList) ind (quadrantRepl 0)
            (by decide) hind (by decide)]
      rw [rewriteKw_blank_concrete ("y-axis".toList) 'y' ("-axis".toList) rfl condCJK ("y-axis Low --> High".toList) ind (quadrantRepl 0)
            (by decide) hind (by decide)]
    · show fixQuadLine (ind ++ (quadrantKw 1) ++ wc :: body) = ind ++ (quadrantRepl 1)
      rw [fixQuadLine_unfold]
      rw [rewriteKw_skip_line (quadrantKw 0) 'q' ("uadrant-1".toList) rfl condColon (quadrantRepl 0) ind (quadrantKw 1) wc body
            (by decide) hind (by decide) hwc hq1]
      rw [rewriteKw_self_cond_false (quadrantKw 1) 'q' ("uadrant-2".toList) rfl condColon (quadrantRepl 1) ind wc body
            (by decide) hind (by decide) hwc hcolon2 hq2]
      rw [rewriteKw_skip_line (quadrantKw 2) 'q' ("uadrant-3".toList) rfl condColon (quadrantRepl 2) ind (quadrantKw 1) wc body
            (by decide) hind (by decide) hwc hq3]
      rw [rewriteKw_skip_line (quadrantKw 3) 'q' ("uadrant-4".toList) rfl condColon (quadrantRepl 3) ind (quadrantKw 1) wc body
            (by decide) hind (by decide) hwc hq4]
      rw [rewriteKw_skip_line (quadrantKw 0) 'q' ("uadrant-1".toList) rfl condCJK (quadrantRepl 0) ind (quadrantKw 1) wc body
            (by decide) hind (by decide) hwc hq1]
      rw [rewriteKw_fire_line (quadrantKw 1) 'q' ("uadrant-2".toList) rfl condCJK (quadrantRepl 1) ind wc body
            (by decide) hind hwc hcjk]
      rw [rewriteKw_blank_concrete (quadrantKw 2) 'q' ("uadrant-3".toList) rfl condCJK (quadrantRepl 2) ind (quadrantRepl 1)
            (by decide) hind (by decide)]
      rw [rewriteKw_blank_concrete (quadrantKw 3) 'q' ("uadrant-4".toList) rfl condCJK (quadrantRepl 3) ind (quadrantRepl 1)
            (by decide) hind (by decide)]
      rw [rewriteKw_blank_concrete ("title".toList) 't' ("itle".toList) rfl condCJK ("title Priority Matrix".toList) ind (quadrantRepl 1)
            (by decide) hind (by decide)]
      rw [rewriteKw_blank_concrete ("x-axis".toList) 'x' ("-axis".toList) rfl condCJK ("x-axis Low --> High".toList) ind (quadrantRepl 1)
            (by decide) hind (by decide)]
      rw [rewriteKw_blank_concrete ("y-axis".toList) 'y' ("-axis".toList) rfl condCJK ("y-axis Low --> High".toList) ind (quadrantRepl 1)
            (by decide) hind (by decide)]
    · show fixQuadLine (ind ++ (quadrantKw 2) ++ wc :: body) = ind ++ (quadrantRepl 2)
      rw [fixQuadLine_unfold]
      rw [rewriteKw_skip_line (quadrantKw 0) 'q' ("uadrant-1".toList) rfl condColon (quadrantRepl 0) ind (quadrantKw 2) wc body
            (by decide) hind (by decide) hwc hq1]
      rw [rewriteKw_skip_line (quadrantKw 1) 'q' ("uadrant-2".toList) rfl condColon (quadrantRepl 1) ind (quadrantKw 2) wc body
            (by decide) hind (by decide) hwc hq2]
      rw [rewriteKw_self_cond_false (quadrantKw 2) 'q' ("uadrant-3".toList) rfl condColon (quadrantRepl 2) ind wc body
            (by decide) hind (by decide) hwc hcolon2 hq3]
      rw [rewriteKw_skip_line (quadrantKw 3) 'q' ("uadrant-4".toList) rfl condColon (quadrantRepl 3) ind (quadrantKw 2) wc body
            (by decide) hind (by decide) hwc hq4]
      rw [rewriteKw_skip_line (quadrantKw 0) 'q' ("uadrant-1".toList) rfl condCJK (quadrantRepl 0) ind (quadrantKw 2) wc body
            (by decide) hind (by decide) hwc hq1]
      rw [rewriteKw_skip_line (quadrantKw 1) 'q' ("uadrant-2".toList) rfl condCJK (quadrantRepl 1) ind (quadrantKw 2) wc body
            (by decide) hind (by decide) hwc hq2]
      rw [rewriteKw_fire_line (quadrantKw 2) 'q' ("uadrant-3".toList) rfl condCJK (quadrantRepl 2) ind wc body
            (by decide) hind hwc hcjk]
      rw [rewriteKw_blank_concrete (quadrantKw 3) 'q' ("uadrant-4".toList) rfl condCJK (quadrantRepl 3) ind (quadrantRepl 2)
            (by decide) hind (by decide)]
      rw [rewriteKw_blank_concrete ("title".toList) 't' ("itle".toList) rfl condCJK ("title Priority Matrix".toList) ind (quadrantRepl 2)
            (by decide) hind (by decide)]
      rw [rewriteKw_blank_concrete ("x-axis".toList) 'x' ("-axis".toList) rfl condCJK ("x-axis Low --> High".toList) ind (quadrantRepl 2)
            (by decide) hind (by decide)]
      rw [rewriteKw_blank_concrete ("y-axis".toList) 'y' ("-axis".toList) rfl condCJK ("y-axis Low --> High".toList) ind (quadrantRepl 2)
            (by decide) hind (by decide)]
    · show fixQuadLine (ind ++ (quadrantKw 3) ++ wc :: body) = ind ++ (quadrantRepl 3)
      rw [fixQuadLine_unfold]
      rw [rewriteKw_skip_line (quadrantKw 0) 'q' ("uadrant-1".toList) rfl condColon (quadrantRepl 0) ind (quadrantKw 3) wc body
            (by decide) hind (by decide) hwc hq1]
      rw [rewriteKw_skip_line (quadrantKw 1) 'q' ("uadrant-2".toList) rfl condColon (quadrantRepl 1) ind (quadrantKw 3) wc body
            (by decide) hind (by decide) hwc hq2]
      rw [rewriteKw_skip_line (quadrantKw 2) 'q' ("uadrant-3".toList) rfl condColon (quadrantRepl 2) ind (quadrantKw 3) wc body
            (by decide) hind (by decide) hwc hq3]
      rw [rewriteKw_self_cond_false (quadrantKw 3) 'q' ("uadrant-4".toList) rfl condColon (quadrantRepl 3) ind wc body
            (by decide) hind (by decide) hwc hcolon2 hq4]
      rw [rewriteKw_skip_line (quadrantKw 0) 'q' ("uadrant-1".toList) rfl condCJK (quadrantRepl 0) ind (quadrantKw 3) wc body
            (by decide) hind (by decide) hwc hq1]
      rw [rewriteKw_skip_line (quadrantKw 1) 'q' ("uadrant-2".toList) rfl condCJK (quadrantRepl 1) ind (quadrantKw 3) wc body
            (by decide) hind (by decide) hwc hq2]
      rw [rewriteKw_skip_line (quadrantKw 2) 'q' ("uadrant-3".toList) rfl condCJK (quadrantRepl 2) ind (quadrantKw 3) wc body
            (by decide) hind (by decide) hwc hq3]
      rw [rewriteKw_fire_line (quadrantKw 3) 'q' ("uadrant-4".toList) rfl condCJK (quadrantRepl 3) ind wc body
            (by decide) hind hwc hcjk]
      rw [rewriteKw_blank_concrete ("title".toList) 't' ("itle".toList) rfl condCJK ("title Priority Matrix".toList) ind (quadrantRepl 3)
            (by decide) hind (by decide)]
      rw [rewriteKw_blank_concrete ("x-axis".toList) 'x' ("-axis".toList) rfl condCJK ("x-axis Low --> High".toList) ind (quadrantRepl 3)
            (by decide) hind (by decide)]
      rw [rewriteKw_blank_concrete ("y-axis".toList) 'y' ("-axis".toList) rfl condCJK ("y-axis Low --> High".toList) ind (quadrantRepl 3)
            (by decide) hind (by decide)]

/-- Helper: a title statement with Chinese text in its body (and no directive
keyword in it) is rewritten to its indent followed by the fixed title. -/
theorem fixQuadLine_title (ind : List Char) (wc : Char) (body : List Char)
    (hind : ∀ c ∈ ind, c = ' ')
    (hwc : wc.isWhitespace = true)
    (hq : containsSeq ("quadrant-".toList) body = false)
    (hcjk : condCJK body = true) :
    fixQuadLine (ind ++ "title".toList ++ wc :: body) = ind ++ "title Priority Matrix".toList := by
  have hq1 : containsSeq (quadrantKw 0) body = false :=
    containsSeq_extend ("quadrant-".toList) (quadrantKw 0) (by decide) body hq
  have hq2 : containsSeq (quadrantKw 1) body = false :=
    containsSeq_extend ("quadrant-".toList) (quadrantKw 1) (by decide) body hq
  have hq3 : containsSeq (quadrantKw 2) body = false :=
    containsSeq_extend ("quadrant-".toList) (quadrantKw 2) (by decide) body hq
  have hq4 : containsSeq (quadrantKw 3) body = false :=
    containsSeq_extend ("quadrant-".toList) (quadrantKw 3) (by decide) body hq
  show fixQuadLine (ind ++ ("title".toList) ++ wc :: body) = ind ++ ("title Priority Matrix".toList)
  rw [fixQuadLine_unfold]
  rw [rewriteKw_skip_line (quadrantKw 0) 'q' ("uadrant-1".toList) rfl condColon (quadrantRepl 0) ind ("title".toList) wc body
        (by decide) hind (by decide) hwc hq1]
  rw [rewriteKw_skip_line (quadrantKw 1) 'q' ("uadrant-2".toList) rfl condColon (quadrantRepl 1) ind ("title".toList) wc body
        (by decide) hind (by decide) hwc hq2]
  rw [rewriteKw_skip_line (quadrantKw 2) 'q' ("uadrant-3".toList) rfl condColon (quadrantRepl 2) ind ("title".toList) wc body
        (by decide) hind (by decide) hwc hq3]
  rw [rewriteKw_skip_line (quadrantKw 3) 'q' ("uadrant-4".toList) rfl condColon (quadrantRepl 3) ind ("title".toList) wc body
        (by decide) hind (by decide) hwc hq4]
  rw [rewriteKw_skip_line (quadrantKw 0) 'q' ("uadrant-1".toList) rfl condCJK (quadrantRepl 0) ind ("title".toList) wc body
        (by decide) hind (by decide) hwc hq1]
  rw [rewriteKw_skip_line (quadrantKw 1) 'q' ("uadrant-2".toList) rfl condCJK (quadrantRepl 1) ind ("title".toList) wc body
        (by decide) hind (by decide) hwc hq2]
  rw [rewriteKw_skip_line (quadrantKw 2) 'q' ("uadrant-3".toList) rfl condCJK (quadrantRepl 2) ind ("title".toList) wc body
        (by decide) hind (by decide) hwc hq3]
  rw [rewriteKw_skip_line (quadrantKw 3) 'q' ("uadrant-4".toList) rfl condCJK (quadrantRepl 3) ind ("title".toList) wc body
        (by decide) hind (by decide) hwc hq4]
  rw [rewriteKw_fire_line ("title".toList) 't' ("itle".toList) rfl condCJK ("title Priority Matrix".toList) ind wc body
        (by decide) hind hwc hcjk]
  rw [rewriteKw_blank_concrete ("x-axis".toList) 'x' ("-axis".toList) rfl condCJK ("x-axis Low --> High".toList) ind ("title Priority Matrix".toList)
        (by decide) hind (by decide)]
  rw [rewriteKw_blank_concrete ("y-axis".toList) 'y' ("-axis".toList) rfl condCJK ("y-axis Low --> High".toList) ind ("title Priority Matrix".toList)
        (by decide) hind (by decide)]

/-- Helper: an x-axis statement with Chinese text in its body (and no
directive keyword in it) is rewritten to its indent followed by the fixed
axis label. -/
theorem fixQuadLine_xaxis (ind : List Char) (wc : Char) (body : List Char)
    (hind : ∀ c ∈ ind, c = ' ')
    (hwc : wc.isWhitespace = true)
    (hq : containsSeq ("quadrant-".toList) body = false)
    (ht : containsSeq ("title".toList) body = false)
    (hcjk : condCJK body = true) :
    fixQuadLine (ind ++ "x-axis".toList ++ wc :: body) = ind ++ "x-axis Low --> High".toList := by
  have hq1 : containsSeq (quadrantKw 0) body = false :=
    containsSeq_extend ("quadrant-".toList) (quadrantKw 0) (by decide) body hq
  have hq2 : containsSeq (quadrantKw 1) body = false :=
    containsSeq_extend ("quadrant-".toList) (quadrantKw 1) (by decide) body hq
  have hq3 : containsSeq (quadrantKw 2) body = false :=
    containsSeq_extend ("quadrant-".toList) (quadrantKw 2) (by decide) body hq
  have hq4 : containsSeq (quadrantKw 3) body = false :=
    containsSeq_extend ("quadrant-".toList) (quadrantKw 3) (by decide) body hq
  show fixQuadLine (ind ++ ("x-axis".toList) ++ wc :: body) = ind ++ ("x-axis Low --> High".toList)
  rw [fixQuadLine_unfold]
  rw [rewriteKw_skip_line (quadrantKw 0) 'q' ("uadrant-1".toList) rfl condColon (quadrantRepl 0) ind ("x-axis".toList) wc body
        (by decide) hind (by decide) hwc hq1]
  rw [rewriteKw_skip_line (quadrantKw 1) 'q' ("uadrant-2".toList) rfl condColon (quadrantRepl 1) ind ("x-axis".toList) wc body
        (by decide) hind (by decide) hwc hq2]
  rw [rewriteKw_skip_line (quadrantKw 2) 'q' ("uadrant-3".toList) rfl condColon (quadrantRepl 2) ind ("x-axis".toList) wc body
        (by decide) hind (by decide) hwc hq3]
  rw [rewriteKw_skip_line (quadrantKw 3) 'q' ("uadrant-4".toList) rfl condColon (quadrantRepl 3) ind ("x-axis".toList) wc body
        (by decide) hind (by decide) hwc hq4]
  rw [rewriteKw_skip_line (quadrantKw 0) 'q' ("uadrant-1".toList) rfl condCJK (quadrantRepl 0) ind ("x-axis".toList) wc body
        (by decide) hind (by decide) hwc hq1]
  rw [rewriteKw_skip_line (quadrantKw 1) 'q' ("uadrant-2".toList) rfl condCJK (quadrantRepl 1) ind ("x-axis".toList) wc body
        (by decide) hind (by decide) hwc hq2]
  rw [rewriteKw_skip_line (quadrantKw 2) 'q' ("uadrant-3".toList) rfl condCJK (quadrantRepl 2) ind ("x-axis".toList) wc body
        (by decide) hind (by decide) hwc hq3]
  rw [rewriteKw_skip_line (quadrantKw 3) 'q' ("uadrant-4".toList) rfl condCJK (quadrantRepl 3) ind ("x-axis".toList) wc body
        (by decide) hind (by decide) hwc hq4]
  rw [rewriteKw_skip_line ("title".toList) 't' ("itle".toList) rfl condCJK ("title Priority Matrix".toList) ind ("x-axis".toList) wc body
        (by decide) hind (by decide) hwc ht]
  rw [rewriteKw_fire_line ("x-axis".toList) 'x' ("-axis".toList) rfl condCJK ("x-axis Low --> High".toList) ind wc body
        (by decide) hind hwc hcjk]
  rw [rewriteKw_blank_concrete ("y-axis".toList) 'y' ("-axis".toList) rfl condCJK ("y-axis Low --> High".toList) ind ("x-axis Low --> High".toList)
        (by decide) hind (by decide)]

/-- Helper: a y-axis statement with Chinese text in its body (and no
directive keyword in it) is rewritten to its indent followed by the fixed
axis label. -/
theorem fixQuadLine_yaxis (ind : List Char) (wc : Char) (body : List Char)
    (hind : ∀ c ∈ ind, c = ' ')
    (hwc : wc.isWhitespace = true)
    (hq : containsSeq ("quadrant-".toList) body = false)
    (ht : containsSeq ("title".toList) body = false)
    (hx : containsSeq ("x-axis".toList) body = false)
    (hcjk : condCJK body = true) :
    fixQuadLine (ind ++ "y-axis".toList ++ wc :: body) = ind ++ "y-axis Low --> High".toList := by
  have hq1 : containsSeq (quadrantKw 0) body = false :=
    containsSeq_extend ("quadrant-".toList) (quadrantKw 0) (by decide) body hq
  have hq2 : containsSeq (quadrantKw 1) body = false :=
    containsSeq_extend ("quadrant-".toList) (quadrantKw 1) (by decide) body hq
  have hq3 : containsSeq (quadrantKw 2) body = false :=
    containsSeq_extend ("quadrant-".toList) (quadrantKw 2) (by decide) body hq
  have hq4 : containsSeq (quadrantKw 3) body = false :=
    containsSeq_extend ("quadrant-".toList) (quadrantKw 3) (by decide) body hq
  show fixQuadLine (ind ++ ("y-axis".toList) ++ wc :: body) = ind ++ ("y-axis Low --> High".toList)
  rw [fixQuadLine_unfold]
  rw [rewriteKw_skip_line (quadrantKw 0) 'q' ("uadrant-1".toList) rfl condColon (quadrantRepl 0) ind ("y-axis".toList) wc body
        (by decide) hind (by decide) hwc hq1]
  rw [rewriteKw_skip_line (quadrantKw 1) 'q' ("uadrant-2".toList) rfl condColon (quadrantRepl 1) ind ("y-axis".toList) wc body
        (by decide) hind (by decide) hwc hq2]
  rw [rewriteKw_skip_line (quadrantKw 2) 'q' ("uadrant-3".toList) rfl condColon (quadrantRepl 2) ind ("y-axis".toList) wc body
        (by decide) hind (by decide) hwc hq3]
  rw [rewriteKw_skip_line (quadrantKw 3) 'q' ("uadrant-4".toList) rfl condColon (quadrantRepl 3) ind ("y-axis".toList) wc body
        (by decide) hind (by decide) hwc hq4]
  rw [rewriteKw_skip_line (quadrantKw 0) 'q' ("uadrant-1".toList) rfl condCJK (quadrantRepl 0) ind ("y-axis".toList) wc body
        (by decide) hind (by decide) hwc hq1]
  rw [rewriteKw_skip_line (quadrantKw 1) 'q' ("uadrant-2".toList) rfl condCJK (quadrantRepl 1) ind ("y-axis".toList) wc body
        (by decide) hind (by decide) hwc hq2]
  rw [rewriteKw_skip_line (quadrantKw 2) 'q' ("uadrant-3".toList) rfl condCJK (quadrantRepl 2) ind ("y-axis".toList) wc body
        (by decide) hind (by decide) hwc hq3]
  rw [rewriteKw_skip_line (quadrantKw 3) 'q' ("uadrant-4".toList) rfl condCJK (quadrantRepl 3) ind ("y-axis".toList) wc body
        (by decide) hind (by decide) hwc hq4]
  rw [rewriteKw_skip_line ("title".toList) 't' ("itle".toList) rfl condCJK ("title Priority Matrix".toList) ind ("y-axis".toList) wc body
        (by decide) hind (by decide) hwc ht]
  rw [rewriteKw_skip_line ("x-axis".toList) 'x' ("-axis".toList) rfl condCJK ("x-axis Low --> High".toList) ind ("y-axis".toList) wc body
        (by decide) hind (by decide) hwc hx]
  rw [rewriteKw_fire_line ("y-axis".toList) 'y' ("-axis".toList) rfl condCJK ("y-axis Low --> High".toList) ind wc body
        (by decide) hind hwc hcjk]

/-- Helper: a pattern that occurs at the head of the text occurs in it. -/
theorem containsSeq_of_isPrefixOf (pat l : List Char) (h : pat.isPrefixOf l = true) :
    containsSeq pat l = true := by
  cases l with
  | nil =>
    cases pat with
    | nil => rfl
    | cons p ps => simp [List.isPrefixOf] at h
  | cons c rest => simp [containsSeq, h]

/-- Helper: a pattern whose first character is absent from the text does not
occur in it. -/
theorem containsSeq_of_head_not_mem (k : Char) (ks l : List Char) (h : k ∉ l) :
    containsSeq (k :: ks) l = false := by
  induction l with
  | nil => rfl
  | cons c rest ih =>
    have hne : (k == c) = false := by
      rw [beq_eq_false_iff_ne]
      intro hh
      exact h (by simp [hh])
    have hrest : k ∉ rest := fun hm => h (List.mem_cons_of_mem c hm)
    simp [containsSeq, List.isPrefixOf, hne, ih hrest]

/-- Helper: an all-Chinese list contains no non-Chinese character. -/
theorem allCJK_not_mem (p : List Char) (hall : p.all isCJK = true) (c : Char)
    (hc : isCJK c = false) : c ∉ p := by
  intro hmem
  have h := List.all_eq_true.mp hall c hmem
  rw [hc] at h
  exact Bool.noConfusion h

/-- Helper: a non-empty all-Chinese list satisfies the Chinese condition. -/
theorem condCJK_of_allCJK (p : List Char) (hall : p.all isCJK = true) (hne : p ≠ []) :
    condCJK p = true := by
  cases p with
  | nil => exact absurd rfl hne
  | cons c rest =>
    have hc := List.all_eq_true.mp hall c (by simp)
    simp [condCJK, hc]

/-- Helper: splitting a newline-free line yields that single line. -/
theorem splitLines_no_newline (l : List Char) (h : '\n' ∉ l) : splitLines l = [l] := by
  induction l with
  | nil => rfl
  | cons c rest ih =>
    have hc : ¬ c = '\n' := by
      intro hh
      exact h (by simp [hh])
    have hrest : '\n' ∉ rest := fun hm => h (List.mem_cons_of_mem c hm)
    simp [splitLines, hc, ih hrest]

/-- Helper: splitting peels a leading newline-free line. -/
theorem splitLines_append_cons (l : List Char) (h : '\n' ∉ l) (t : List Char) :
    splitLines (l ++ '\n' :: t) = l :: splitLines t := by
  induction l with
  | nil => simp [splitLines]
  | cons c rest ih =>
    have hc : ¬ c = '\n' := by
      intro hh
      exact h (by simp [hh])
    have hrest : '\n' ∉ rest := fun hm => h (List.mem_cons_of_mem c hm)
    simp [splitLines, hc, ih hrest]

/-- Helper: splitting inverts joining for a non-empty list of newline-free
lines. -/
theorem splitLines_joinLines : ∀ ls : List (List Char), ls ≠ [] →
    (∀ l ∈ ls, '\n' ∉ l) → splitLines (joinLines ls) = ls := by
  intro ls
  induction ls with
  | nil => intro h; exact absurd rfl h
  | cons l rest ih =>
    intro _ hnl
    cases rest with
    | nil =>
      rw [show joinLines [l] = l from rfl]
      exact splitLines_no_newline l (hnl l (by simp))
    | cons l2 r2 =>
      rw [show joinLines (l :: l2 :: r2) = l ++ '\n' :: joinLines (l2 :: r2) from rfl,
          splitLines_append_cons l (hnl l (by simp)),
          ih (List.cons_ne_nil l2 r2) (fun x hx => hnl x (by simp [hx]))]

/-- Helper: first-colon splitting of a colon-free part followed by a colon. -/
theorem splitAtColon_append (a rest : List Char) (h : ':' ∉ a) :
    splitAtColon (a ++ ':' :: rest) = some (a, rest) := by
  induction a with
  | nil => simp [splitAtColon]
  | cons c cs ih =>
    have hc : ¬ c = ':' := by
      intro hh
      exact h (by simp [hh])
    have hcs : ':' ∉ cs := fun hm => h (List.mem_cons_of_mem c hm)
    simp [splitAtColon, hc, ih hcs]

/-- Helper: every stage is the identity on a line free of all the keyword
head characters. -/
theorem fixQuadLine_no_heads (line : List Char)
    (hqn : 'q' ∉ line) (htn : 't' ∉ line) (hxn : 'x' ∉ line) (hyn : 'y' ∉ line) :
    fixQuadLine line = line := by
  have hc0 : containsSeq (quadrantKw 0) line = false :=
    containsSeq_of_head_not_mem 'q' ("uadrant-1".toList) line hqn
  have hc1 : containsSeq (quadrantKw 1) line = false :=
    containsSeq_of_head_not_mem 'q' ("uadrant-2".toList) line hqn
  have hc2 : containsSeq (quadrantKw 2) line = false :=
    containsSeq_of_head_not_mem 'q' ("uadrant-3".toList) line hqn
  have hc3 : containsSeq (quadrantKw 3) line = false :=
    containsSeq_of_head_not_mem 'q' ("uadrant-4".toList) line hqn
  have hct : containsSeq ("title".toList) line = false :=
    containsSeq_of_head_not_mem 't' ("itle".toList) line htn
  have hcx : containsSeq ("x-axis".toList) line = false :=
    containsSeq_of_head_not_mem 'x' ("-axis".toList) line hxn
  have hcy : containsSeq ("y-axis".toList) line = false :=
    containsSeq_of_head_not_mem 'y' ("-axis".toList) line hyn
  rw [fixQuadLine_unfold,
      rewriteKw_of_not_contains (quadrantKw 0) condColon (quadrantRepl 0) line hc0,
      rewriteKw_of_not_contains (quadrantKw 1) condColon (quadrantRepl 1) line hc1,
      rewriteKw_of_not_contains (quadrantKw 2) condColon (quadrantRepl 2) line hc2,
      rewriteKw_of_not_contains (quadrantKw 3) condColon (quadrantRepl 3) line hc3,
      rewriteKw_of_not_contains (quadrantKw 0) condCJK (quadrantRepl 0) line hc0,
      rewriteKw_of_not_contains (quadrantKw 1) condCJK (quadrantRepl 1) line hc1,
      rewriteKw_of_not_contains (quadrantKw 2) condCJK (quadrantRepl 2) line hc2,
      rewriteKw_of_not_contains (quadrantKw 3) condCJK (quadrantRepl 3) line hc3,
      rewriteKw_of_not_contains ("title".toList) condCJK ("title Priority Matrix".toList) line hct,
      rewriteKw_of_not_contains ("x-axis".toList) condCJK ("x-axis Low --> High".toList) line hcx,
      rewriteKw_of_not_contains ("y-axis".toList) condCJK ("y-axis Low --> High".toList) line hcy]

/-- Helper: the j-th output line of the data-point relabelling: matching lines
become Req lines numbered by the starting counter plus the number of
matching lines before them; the others are unchanged. -/
theorem relabelPoints_getElem? (lines : List (List Char)) (n j : Nat) :
    ((relabelPoints lines n).1)[j]? =
      (lines[j]?).map (fun line =>
        match pointSplit line with
        | some tail =>
          reqLine (n + (lines.take j).countP (fun l => (pointSplit l).isSome)) tail
        | none => line) := by
  induction lines generalizing n j with
  | nil => simp [relabelPoints]
  | cons line rest ih =>
    cases hps : pointSplit line with
    | some tail =>
      cases j with
      | zero => simp [relabelPoints, hps]
      | succ m =>
        simp only [relabelPoints, hps, List.getElem?_cons_succ, List.take_succ_cons,
          List.countP_cons]
        rw [ih (n + 1) m]
        cases hr : rest[m]? with
        | none => simp
        | some line2 =>
          simp only [Option.map_some']
          have harith : n + 1 + (rest.take m).countP (fun l => (pointSplit l).isSome)
              = n + ((rest.take m).countP (fun l => (pointSplit l).isSome)
                  + (if (pointSplit line).isSome then 1 else 0)) := by
            rw [hps]
            simp
            omega
          rw [harith, hps]
    | none =>
      cases j with
      | zero => simp [relabelPoints, hps]
      | succ m =>
        simp only [relabelPoints, hps, List.getElem?_cons_succ, List.take_succ_cons,
          List.countP_cons]
        rw [ih n m]
        cases hr : rest[m]? with
        | none => simp
        | some line2 =>
          simp only [Option.map_some']
          have harith : n + (rest.take m).countP (fun l => (pointSplit l).isSome)
              = n + ((rest.take m).countP (fun l => (pointSplit l).isSome)
                  + (if (pointSplit line).isSome then 1 else 0)) := by
            rw [hps]
            simp
          rw [harith, hps]

/-- Helper: appending text that starts with a newline does not change whether
a word-boundary end match starts at the head of the original text. -/
theorem endWordAt_append_newline (prev : Option Char) (l0 y : List Char) :
    endWordAt prev (l0 ++ '\n' :: y) = endWordAt prev l0 := by
  match l0 with
  | [] => simp +decide [endWordAt, List.isPrefixOf]
  | [a] => simp +decide [endWordAt, List.isPrefixOf]
  | [a, b] => simp +decide [endWordAt, List.isPrefixOf]
  | a :: b :: c :: rest =>
    cases rest <;> simp +decide [endWordAt, List.isPrefixOf, isWordChar]

/-- Helper: one appended end line contributes exactly one word-boundary end
match, whatever precedes it, provided the following text is empty or starts
with a newline. -/
theorem countEndAux_block (prev : Option Char) (t : List Char)
    (ht : t = [] ∨ ∃ t2, t = '\n' :: t2) :
    countEndAux prev ("\n    end".toList ++ t) = 1 + countEndAux (some 'd') t := by
  rcases ht with h | ⟨t2, h⟩ <;> subst h <;>
    simp +decide [countEndAux, endWordAt, List.isPrefixOf, isWordChar]

/-- Helper: the appended block of n end lines contains exactly n word-boundary
end matches. -/
theorem countEndAux_endsBlock (n : Nat) : ∀ prev, countEndAux prev (endsBlock n) = n := by
  induction n with
  | zero => intro prev; simp [endsBlock, countEndAux]
  | succ m ih =>
    intro prev
    have hshape : endsBlock m = [] ∨ ∃ t2, endsBlock m = '\n' :: t2 := by
      cases m
      · exact Or.inl rfl
      · exact Or.inr ⟨_, rfl⟩
    calc countEndAux prev (endsBlock (m + 1))
        = countEndAux prev ("\n    end".toList ++ endsBlock m) := rfl
      _ = 1 + countEndAux (some 'd') (endsBlock m) := countEndAux_block prev _ hshape
      _ = 1 + m := by rw [ih]
      _ = m + 1 := by omega

/-- Helper: appending the end block adds exactly its own matches to the
word-boundary end count. -/
theorem countEndAux_append_endsBlock (s : List Char) (n : Nat) :
    ∀ prev, countEndAux prev (s ++ endsBlock n) = countEndAux prev s + n := by
  induction s with
  | nil =>
    intro prev
    simp [countEndAux, countEndAux_endsBlock n prev]
  | cons c rest ih =>
    intro prev
    cases n with
    | zero => simp [endsBlock]
    | succ m =>
      have hEB : endsBlock (m + 1) = '\n' :: ("    end".toList ++ endsBlock m) := rfl
      have hb : endWordAt prev ((c :: rest) ++ endsBlock (m + 1)) = endWordAt prev (c :: rest) := by
        rw [hEB]
        exact endWordAt_append_newline prev (c :: rest) ("    end".toList ++ endsBlock m)
      calc countEndAux prev ((c :: rest) ++ endsBlock (m + 1))
          = (if endWordAt prev ((c :: rest) ++ endsBlock (m + 1)) then 1 else 0)
              + countEndAux (some c) (rest ++ endsBlock (m + 1)) := by
            simp [countEndAux]
        _ = (if endWordAt prev (c :: rest) then 1 else 0)
              + (countEndAux (some c) rest + (m + 1)) := by
            rw [hb, ih (some c)]
        _ = countEndAux prev (c :: rest) + (m + 1) := by
            simp [countEndAux]
            omega

theorem countEnd_append_endsBlock (s : List Char) (n : Nat) :
    countEnd (s ++ endsBlock n) = countEnd s + n :=
  countEndAux_append_endsBlock s n none

/-- C9: on a flow/graph diagram (no quadrant declaration) with more subgraph
opens than end closes, the repair appends exactly the missing number of end
lines before the relabelling passes, bringing the end count up to the
subgraph count; when opens do not exceed closes nothing is appended; the
concrete two-subgraph, zero-end diagram ends up with exactly two end
matches. -/
theorem C9_flow_append_ends :
    (∀ s : List Char,
        containsSeq ("quadrantChart".toList) s = false →
        hasFlowHeader s = true →
        countEnd s < countSubgraph s →
        fixMermaidDefinition s =
          joinLines ((relabelNodes (splitLines (relabelSubgraphs
            (s ++ endsBlock (countSubgraph s - countEnd s)))) 1).1) ∧
        countEnd (s ++ endsBlock (countSubgraph s - countEnd s)) = countSubgraph s) ∧
    (∀ s : List Char,
        containsSeq ("quadrantChart".toList) s = false →
        hasFlowHeader s = true →
        countSubgraph s ≤ countEnd s →
        fixMermaidDefinition s =
          joinLines ((relabelNodes (splitLines (relabelSubgraphs s)) 1).1)) ∧
    (fixMermaidDefinition flowEx = flowEx ++ endsBlock 2 ∧
      countEnd (fixMermaidDefinition flowEx) = 2 ∧
      countSubgraph flowEx = 2 ∧ countEnd flowEx = 0) := by
  refine ⟨?_, ?_, by decide⟩
  · intro s hq hf hlt
    constructor
    · simp only [fixMermaidDefinition, hq]
      simp [hf, flowFix, appendEnds, hlt]
    · rw [countEnd_append_endsBlock]
      omega
  · intro s hq hf hle
    have hnot : ¬ countEnd s < countSubgraph s := by omega
    simp only [fixMermaidDefinition, hq]
    simp [hf, flowFix, appendEnds, hnot]

/-- C9 (witness): the append theorem applied at the concrete flow diagram. -/
theorem C9_flow_append_ends_witness :
    fixMermaidDefinition flowEx =
      joinLines ((relabelNodes (splitLines (relabelSubgraphs
        (flowEx ++ endsBlock (countSubgraph flowEx - countEnd flowEx)))) 1).1) ∧
    countEnd (flowEx ++ endsBlock (countSubgraph flowEx - countEnd flowEx)) =
      countSubgraph flowEx :=
  C9_flow_append_ends.1 flowEx (by decide) (by decide) (by decide)

/-- C10 (witness): the invariant applied after one concrete toggleOption. -/
theorem C10_single_select_toggle_invariant_witness :
    (∃ opt, (applyToggles exState [ToggleCall.option "B"]).selectedAnswers = [opt] ∧
      (applyToggles exState [ToggleCall.option "B"]).otherSelected = false ∧
      (applyToggles exState [ToggleCall.option "B"]).otherAnswerText = "") ∨
    ((applyToggles exState [ToggleCall.option "B"]).otherSelected = true ∧
      (applyToggles exState [ToggleCall.option "B"]).selectedAnswers = []) :=
  C10_single_select_toggle_invariant exState [ToggleCall.option "B"] rfl
    (List.cons_ne_nil _ _)

/-- Helper: definitional unfolding of the quadrant branch. -/
theorem fixQuadrant_unfold (lines : List (List Char)) :
    fixQuadrant lines =
      (if hasValidPoint (joinLines ((relabelPoints (lines.map fixQuadLine) 1).1)) = true
       then (relabelPoints (lines.map fixQuadLine) 1).1
       else (relabelPoints (lines.map fixQuadLine) 1).1 ++ [sampleLine]) := rfl

/-- Helper: on a source mentioning quadrantChart the repair is the quadrant
branch followed by the flow-branch test. -/
theorem fixMermaidDefinition_quadrant (s : List Char)
    (hq : containsSeq ("quadrantChart".toList) s = true) :
    fixMermaidDefinition s =
      (if hasFlowHeader (joinLines (fixQuadrant (splitLines s))) = true
       then flowFix (joinLines (fixQuadrant (splitLines s)))
       else joinLines (fixQuadrant (splitLines s))) := by
  simp only [fixMermaidDefinition, hq]
  simp

/-- C7 (amended): for quadrant charts the repair rewrites each quadrant-label
statement whose label text contains a colon or Chinese text to the fixed
English placeholder, rewrites title and axis statements containing Chinese
text to fixed English placeholders, relabels every Chinese-named data-point
line to a sequential Req name in order of first appearance, and appends one
synthetic default data point when no valid data point remains, so the
diagram is never empty. -/
theorem C7_quadrant_repair_amended :
    (∀ (i : Fin 4) (ind : List Char) (wc : Char) (body : List Char),
        (∀ c ∈ ind, c = ' ') → wc.isWhitespace = true →
        containsSeq ("quadrant-".toList) body = false →
        (condColon body = true ∨ condCJK body = true) →
        fixQuadLine (ind ++ quadrantKw i ++ wc :: body) = ind ++ quadrantRepl i) ∧
    (∀ (ind : List Char) (wc : Char) (body : List Char),
        (∀ c ∈ ind, c = ' ') → wc.isWhitespace = true →
        containsSeq ("quadrant-".toList) body = false →
        condCJK body = true →
        fixQuadLine (ind ++ "title".toList ++ wc :: body) =
          ind ++ "title Priority Matrix".toList) ∧
    (∀ (ind : List Char) (wc : Char) (body : List Char),
        (∀ c ∈ ind, c = ' ') → wc.isWhitespace = true →
        containsSeq ("quadrant-".toList) body = false →
        containsSeq ("title".toList) body = false →
        condCJK body = true →
        fixQuadLine (ind ++ "x-axis".toList ++ wc :: body) =
          ind ++ "x-axis Low --> High".toList) ∧
    (∀ (ind : List Char) (wc : Char) (body : List Char),
        (∀ c ∈ ind, c = ' ') → wc.isWhitespace = true →
        containsSeq ("quadrant-".toList) body = false →
        containsSeq ("title".toList) body = false →
        containsSeq ("x-axis".toList) body = false →
        condCJK body = true →
        fixQuadLine (ind ++ "y-axis".toList ++ wc :: body) =
          ind ++ "y-axis Low --> High".toList) ∧
    (∀ (lines : List (List Char)) (n j : Nat),
        ((relabelPoints lines n).1)[j]? =
          (lines[j]?).map (fun line =>
            match pointSplit line with
            | some tail =>
              reqLine (n + (lines.take j).countP (fun l => (pointSplit l).isSome)) tail
            | none => line)) ∧
    (∀ lines : List (List Char),
        hasValidPoint (joinLines ((relabelPoints (lines.map fixQuadLine) 1).1)) = false →
        fixQuadrant lines = (relabelPoints (lines.map fixQuadLine) 1).1 ++ [sampleLine]) ∧
    (∀ s : List Char,
        containsSeq ("quadrantChart".toList) s = true →
        fixMermaidDefinition s =
          (if hasFlowHeader (joinLines (fixQuadrant (splitLines s))) = true
           then flowFix (joinLines (fixQuadrant (splitLines s)))
           else joinLines (fixQuadrant (splitLines s)))) := by
  refine ⟨fixQuadLine_quadrant_label, fixQuadLine_title, fixQuadLine_xaxis,
    fixQuadLine_yaxis, relabelPoints_getElem?, ?_, ?_⟩
  · intro lines hnv
    simp [fixQuadrant, hnv]
  · intro s hq
    exact fixMermaidDefinition_quadrant s hq

/-- C7 (counterexample): on a quadrant chart whose quadrant-1 statement is
plain ASCII without a colon and whose data point is named with a non-ASCII,
non-Chinese character, the repair rewrites neither (no P1 placeholder and no
Req name appear in the output), contradicting the claim that all four
quadrant labels are rewritten and every non-ASCII-named data point is
relabelled. -/
theorem C7_quadrant_repair_counterexample :
    fixMermaidDefinition quadEx =
      ("quadrantChart\n    quadrant-1 Keep\n    Café: [0.1, 0.2]\n    Sample: [0.5, 0.5]").toList ∧
    containsSeq ("P1 High Priority".toList) (fixMermaidDefinition quadEx) = false ∧
    containsSeq ("Req".toList) (fixMermaidDefinition quadEx) = false := by
  refine ⟨by decide, by decide, by decide⟩

/-- C7 (witness): the amended theorem applied at a concrete quadrant label
with a Chinese body. -/
theorem C7_quadrant_repair_amended_witness :
    fixQuadLine (("    ".toList) ++ quadrantKw 0 ++ ' ' :: ("高".toList)) =
      ("    ".toList) ++ quadrantRepl 0 :=
  C7_quadrant_repair_amended.1 0 ("    ".toList) ' ' ("高".toList)
    (by decide) (by decide) (by decide) (Or.inr (by decide))

set_option maxRecDepth 8192 in
/-- C8: every quadrant chart of the Chinese-label family (arbitrary non-empty
Chinese title, axis and quadrant label texts and one Chinese data-point
name) repairs to the fixed output, whose quadrant, axis and title text is
all ASCII and which carries a Req1 data point, and running the repair on
that output changes nothing (idempotence). -/
theorem C8_quadrant_repair_idempotent
    (t xa ya q1 q2 q3 q4 nm : List Char)
    (ht1 : t.all isCJK = true) (ht2 : t ≠ [])
    (hxa1 : xa.all isCJK = true) (hxa2 : xa ≠ [])
    (hya1 : ya.all isCJK = true) (hya2 : ya ≠ [])
    (hq11 : q1.all isCJK = true) (hq12 : q1 ≠ [])
    (hq21 : q2.all isCJK = true) (hq22 : q2 ≠ [])
    (hq31 : q3.all isCJK = true) (hq32 : q3 ≠ [])
    (hq41 : q4.all isCJK = true) (hq42 : q4 ≠ [])
    (hnm1 : nm.all isCJK = true) (hnm2 : nm ≠ []) :
    fixMermaidDefinition (quadFamily t xa ya q1 q2 q3 q4 nm) = quadFamilyFixed ∧
    quadFamilyFixed.all (fun c => c.toNat < 128) = true ∧
    containsSeq ("Req1".toList) quadFamilyFixed = true ∧
    fixMermaidDefinition quadFamilyFixed = quadFamilyFixed := by
  have hnl : ∀ p : List Char, p.all isCJK = true → '\n' ∉ p := fun p hp =>
    allCJK_not_mem p hp '\n' (by decide)
  have hqf : ∀ p : List Char, p.all isCJK = true →
      containsSeq ("quadrant-".toList) p = false := fun p hp =>
    containsSeq_of_head_not_mem 'q' ("uadrant-".toList) p (allCJK_not_mem p hp 'q' (by decide))
  have htfp : ∀ p : List Char, p.all isCJK = true →
      containsSeq ("title".toList) p = false := fun p hp =>
    containsSeq_of_head_not_mem 't' ("itle".toList) p (allCJK_not_mem p hp 't' (by decide))
  have hxfp : ∀ p : List Char, p.all isCJK = true →
      containsSeq ("x-axis".toList) p = false := fun p hp =>
    containsSeq_of_head_not_mem 'x' ("-axis".toList) p (allCJK_not_mem p hp 'x' (by decide))
  have m1 : '\n' ∉ ("    title ".toList ++ t) := by
    intro hm
    rcases List.mem_append.mp hm with h | h
    · exact absurd h (by decide)
    · exact hnl t ht1 h
  have m2 : '\n' ∉ ("    x-axis ".toList ++ xa) := by
    intro hm
    rcases List.mem_append.mp hm with h | h
    · exact absurd h (by decide)
    · exact hnl xa hxa1 h
  have m3 : '\n' ∉ ("    y-axis ".toList ++ ya) := by
    intro hm
    rcases List.mem_append.mp hm with h | h
    · exact absurd h (by decide)
    · exact hnl ya hya1 h
  have m4 : '\n' ∉ ("    quadrant-1 ".toList ++ q1) := by
    intro hm
    rcases List.mem_append.mp hm with h | h
    · exact absurd h (by decide)
    · exact hnl q1 hq11 h
  have m5 : '\n' ∉ ("    quadrant-2 ".toList ++ q2) := by
    intro hm
    rcases List.mem_append.mp hm with h | h
    · exact absurd h (by decide)
    · exact hnl q2 hq21 h
  have m6 : '\n' ∉ ("    quadrant-3 ".toList ++ q3) := by
    intro hm
    rcases List.mem_append.mp hm with h | h
    · exact absurd h (by decide)
    · exact hnl q3 hq31 h
  have m7 : '\n' ∉ ("    quadrant-4 ".toList ++ q4) := by
    intro hm
    rcases List.mem_append.mp hm with h | h
    · exact absurd h (by decide)
    · exact hnl q4 hq41 h
  have m8 : '\n' ∉ ("    ".toList ++ nm ++ ": [0.3, 0.6]".toList) := by
    intro hm
    rcases List.mem_append.mp hm with h | h
    · rcases List.mem_append.mp h with h2 | h2
      · exact absurd h2 (by decide)
      · exact hnl nm hnm1 h2
    · exact absurd h (by decide)
  have hsplit : splitLines (quadFamily t xa ya q1 q2 q3 q4 nm) =
      ["quadrantChart".toList,
       "    title ".toList ++ t,
       "    x-axis ".toList ++ xa,
       "    y-axis ".toList ++ ya,
       "    quadrant-1 ".toList ++ q1,
       "    quadrant-2 ".toList ++ q2,
       "    quadrant-3 ".toList ++ q3,
       "    quadrant-4 ".toList ++ q4,
       "    ".toList ++ nm ++ ": [0.3, 0.6]".toList] := by
    show splitLines (joinLines
      ["quadrantChart".toList,
       "    title ".toList ++ t,
       "    x-axis ".toList ++ xa,
       "    y-axis ".toList ++ ya,
       "    quadrant-1 ".toList ++ q1,
       "    quadrant-2 ".toList ++ q2,
       "    quadrant-3 ".toList ++ q3,
       "    quadrant-4 ".toList ++ q4,
       "    ".toList ++ nm ++ ": [0.3, 0.6]".toList]) =
      ["quadrantChart".toList,
       "    title ".toList ++ t,
       "    x-axis ".toList ++ xa,
       "    y-axis ".toList ++ ya,
       "    quadrant-1 ".toList ++ q1,
       "    quadrant-2 ".toList ++ q2,
       "    quadrant-3 ".toList ++ q3,
       "    quadrant-4 ".toList ++ q4,
       "    ".toList ++ nm ++ ": [0.3, 0.6]".toList]
    apply splitLines_joinLines _ (by simp)
    intro l hl
    simp only [List.mem_cons, List.not_mem_nil, or_false] at hl
    rcases hl with rfl | rfl | rfl | rfl | rfl | rfl | rfl | rfl | rfl
    · decide
    · exact m1
    · exact m2
    · exact m3
    · exact m4
    · exact m5
    · exact m6
    · exact m7
    · exact m8
  have f0 : fixQuadLine ("quadrantChart".toList) = "quadrantChart".toList := by decide
  have e1 : "    title ".toList ++ t = "    ".toList ++ "title".toList ++ ' ' :: t := rfl
  have f1 : fixQuadLine ("    title ".toList ++ t) =
      "    ".toList ++ "title Priority Matrix".toList := by
    rw [e1]
    exact fixQuadLine_title ("    ".toList) ' ' t (by decide) (by decide)
      (hqf t ht1) (condCJK_of_allCJK t ht1 ht2)
  have e2 : "    x-axis ".toList ++ xa = "    ".toList ++ "x-axis".toList ++ ' ' :: xa := rfl
  have f2 : fixQuadLine ("    x-axis ".toList ++ xa) =
      "    ".toList ++ "x-axis Low --> High".toList := by
    rw [e2]
    exact fixQuadLine_xaxis ("    ".toList) ' ' xa (by decide) (by decide)
      (hqf xa hxa1) (htfp xa hxa1) (condCJK_of_allCJK xa hxa1 hxa2)
  have e3 : "    y-axis ".toList ++ ya = "    ".toList ++ "y-axis".toList ++ ' ' :: ya := rfl
  have f3 : fixQuadLine ("    y-axis ".toList ++ ya) =
      "    ".toList ++ "y-axis Low --> High".toList := by
    rw [e3]
    exact fixQuadLine_yaxis ("    ".toList) ' ' ya (by decide) (by decide)
      (hqf ya hya1) (htfp ya hya1) (hxfp ya hya1) (condCJK_of_allCJK ya hya1 hya2)
  have e4 : "    quadrant-1 ".toList ++ q1 = "    ".toList ++ quadrantKw 0 ++ ' ' :: q1 := rfl
  have f4 : fixQuadLine ("    quadrant-1 ".toList ++ q1) = "    ".toList ++ quadrantRepl 0 := by
    rw [e4]
    exact fixQuadLine_quadrant_label 0 ("    ".toList) ' ' q1 (by decide) (by decide)
      (hqf q1 hq11) (Or.inr (condCJK_of_allCJK q1 hq11 hq12))
  have e5 : "    quadrant-2 ".toList ++ q2 = "    ".toList ++ quadrantKw 1 ++ ' ' :: q2 := rfl
  have f5 : fixQuadLine ("    quadrant-2 ".toList ++ q2) = "    ".toList ++ quadrantRepl 1 := by
    rw [e5]
    exact fixQuadLine_quadrant_label 1 ("    ".toList) ' ' q2 (by decide) (by decide)
      (hqf q2 hq21) (Or.inr (condCJK_of_allCJK q2 hq21 hq22))
  have e6 : "    quadrant-3 ".toList ++ q3 = "    ".toList ++ quadrantKw 2 ++ ' ' :: q3 := rfl
  have f6 : fixQuadLine ("    quadrant-3 ".toList ++ q3) = "    ".toList ++ quadrantRepl 2 := by
    rw [e6]
    exact fixQuadLine_quadrant_label 2 ("    ".toList) ' ' q3 (by decide) (by decide)
      (hqf q3 hq31) (Or.inr (condCJK_of_allCJK q3 hq31 hq32))
  have e7 : "    quadrant-4 ".toList ++ q4 = "    ".toList ++ quadrantKw 3 ++ ' ' :: q4 := rfl
  have f7 : fixQuadLine ("    quadrant-4 ".toList ++ q4) = "    ".toList ++ quadrantRepl 3 := by
    rw [e7]
    exact fixQuadLine_quadrant_label 3 ("    ".toList) ' ' q4 (by decide) (by decide)
      (hqf q4 hq41) (Or.inr (condCJK_of_allCJK q4 hq41 hq42))
  have hmem8 : ∀ c : Char, isCJK c = false → c ∉ ("    ".toList) →
      c ∉ (": [0.3, 0.6]".toList) →
      c ∉ ("    ".toList ++ nm ++ ": [0.3, 0.6]".toList) := by
    intro c hc h1 h2 hm
    rcases List.mem_append.mp hm with h | h
    · rcases List.mem_append.mp h with h3 | h3
      · exact h1 h3
      · exact allCJK_not_mem nm hnm1 c hc h3
    · exact h2 h
  have f8 : fixQuadLine ("    ".toList ++ nm ++ ": [0.3, 0.6]".toList) =
      "    ".toList ++ nm ++ ": [0.3, 0.6]".toList :=
    fixQuadLine_no_heads _ (hmem8 'q' (by decide) (by decide) (by decide))
      (hmem8 't' (by decide) (by decide) (by decide))
      (hmem8 'x' (by decide) (by decide) (by decide))
      (hmem8 'y' (by decide) (by decide) (by decide))
  have hmap : (["quadrantChart".toList,
       "    title ".toList ++ t,
       "    x-axis ".toList ++ xa,
       "    y-axis ".toList ++ ya,
       "    quadrant-1 ".toList ++ q1,
       "    quadrant-2 ".toList ++ q2,
       "    quadrant-3 ".toList ++ q3,
       "    quadrant-4 ".toList ++ q4,
       "    ".toList ++ nm ++ ": [0.3, 0.6]".toList]).map fixQuadLine =
      ["quadrantChart".toList,
       "    ".toList ++ "title Priority Matrix".toList,
       "    ".toList ++ "x-axis Low --> High".toList,
       "    ".toList ++ "y-axis Low --> High".toList,
       "    ".toList ++ quadrantRepl 0,
       "    ".toList ++ quadrantRepl 1,
       "    ".toList ++ quadrantRepl 2,
       "    ".toList ++ quadrantRepl 3,
       "    ".toList ++ nm ++ ": [0.3, 0.6]".toList] := by
    simp only [List.map_cons, List.map_nil, f0, f1, f2, f3, f4, f5, f6, f7, f8]
  have p0 : pointSplit ("quadrantChart".toList) = none := by decide
  have p1 : pointSplit ("    ".toList ++ "title Priority Matrix".toList) = none := by decide
  have p2 : pointSplit ("    ".toList ++ "x-axis Low --> High".toList) = none := by decide
  have p3 : pointSplit ("    ".toList ++ "y-axis Low --> High".toList) = none := by decide
  have p4 : pointSplit ("    ".toList ++ quadrantRepl 0) = none := by decide
  have p5 : pointSplit ("    ".toList ++ quadrantRepl 1) = none := by decide
  have p6 : pointSplit ("    ".toList ++ quadrantRepl 2) = none := by decide
  have p7 : pointSplit ("    ".toList ++ quadrantRepl 3) = none := by decide
  have hnmc : ':' ∉ ("    ".toList ++ nm) := by
    intro hm
    rcases List.mem_append.mp hm with h | h
    · exact absurd h (by decide)
    · exact allCJK_not_mem nm hnm1 ':' (by decide) h
  have e8 : "    ".toList ++ nm ++ ": [0.3, 0.6]".toList
      = ("    ".toList ++ nm) ++ ':' :: (" [0.3, 0.6]".toList) := rfl
  have hpreCJK : (("    ".toList ++ nm).any isCJK) = true := by
    rw [List.any_append]
    have hx := condCJK_of_allCJK nm hnm1 hnm2
    simp only [condCJK] at hx
    simp [hx]
  have p8 : pointSplit ("    ".toList ++ nm ++ ": [0.3, 0.6]".toList) =
      some ("0.3, 0.6]".toList) := by
    rw [e8]
    simp only [pointSplit, splitAtColon_append _ _ hnmc]
    rw [if_pos hpreCJK]
    decide
  have hreq : reqLine 1 ("0.3, 0.6]".toList) = "    Req1: [0.3, 0.6]".toList := by decide
  have hrel : (relabelPoints
      (["quadrantChart".toList,
       "    ".toList ++ "title Priority Matrix".toList,
       "    ".toList ++ "x-axis Low --> High".toList,
       "    ".toList ++ "y-axis Low --> High".toList,
       "    ".toList ++ quadrantRepl 0,
       "    ".toList ++ quadrantRepl 1,
       "    ".toList ++ quadrantRepl 2,
       "    ".toList ++ quadrantRepl 3,
       "    ".toList ++ nm ++ ": [0.3, 0.6]".toList]) 1).1 =
      ["quadrantChart".toList,
       "    ".toList ++ "title Priority Matrix".toList,
       "    ".toList ++ "x-axis Low --> High".toList,
       "    ".toList ++ "y-axis Low --> High".toList,
       "    ".toList ++ quadrantRepl 0,
       "    ".toList ++ quadrantRepl 1,
       "    ".toList ++ quadrantRepl 2,
       "    ".toList ++ quadrantRepl 3,
       "    Req1: [0.3, 0.6]".toList] := by
    simp only [relabelPoints, p0, p1, p2, p3, p4, p5, p6, p7, p8, hreq]
  have hcq : containsSeq ("quadrantChart".toList) (quadFamily t xa ya q1 q2 q3 q4 nm) = true := by
    apply containsSeq_of_isPrefixOf
    rw [List.isPrefixOf_iff_prefix]
    exact ⟨'\n' :: joinLines
      ["    title ".toList ++ t,
       "    x-axis ".toList ++ xa,
       "    y-axis ".toList ++ ya,
       "    quadrant-1 ".toList ++ q1,
       "    quadrant-2 ".toList ++ q2,
       "    quadrant-3 ".toList ++ q3,
       "    quadrant-4 ".toList ++ q4,
       "    ".toList ++ nm ++ ": [0.3, 0.6]".toList], rfl⟩
  have hmain : fixMermaidDefinition (quadFamily t xa ya q1 q2 q3 q4 nm) = quadFamilyFixed := by
    rw [fixMermaidDefinition_quadrant _ hcq, hsplit, fixQuadrant_unfold, hmap, hrel]
    rw [if_pos (show hasValidPoint (joinLines
      ["quadrantChart".toList,
       "    ".toList ++ "title Priority Matrix".toList,
       "    ".toList ++ "x-axis Low --> High".toList,
       "    ".toList ++ "y-axis Low --> High".toList,
       "    ".toList ++ quadrantRepl 0,
       "    ".toList ++ quadrantRepl 1,
       "    ".toList ++ quadrantRepl 2,
       "    ".toList ++ quadrantRepl 3,
       "    Req1: [0.3, 0.6]".toList]) = true from by decide)]
    rw [show joinLines
      ["quadrantChart".toList,
       "    ".toList ++ "title Priority Matrix".toList,
       "    ".toList ++ "x-axis Low --> High".toList,
       "    ".toList ++ "y-axis Low --> High".toList,
       "    ".toList ++ quadrantRepl 0,
       "    ".toList ++ quadrantRepl 1,
       "    ".toList ++ quadrantRepl 2,
       "    ".toList ++ quadrantRepl 3,
       "    Req1: [0.3, 0.6]".toList] = quadFamilyFixed from by decide]
    rw [if_neg (show ¬ hasFlowHeader quadFamilyFixed = true from by decide)]
  exact ⟨hmain, by decide, by decide, by decide⟩

set_option maxRecDepth 8192 in
/-- C8 (witness): the family theorem applied at concrete Chinese labels. -/
theorem C8_quadrant_repair_idempotent_witness :
    fixMermaidDefinition (quadFamily ("高".toList) ("低".toList) ("价".toList) ("值".toList)
        ("计".toList) ("后".toList) ("缓".toList) ("需".toList)) = quadFamilyFixed ∧
    quadFamilyFixed.all (fun c => c.toNat < 128) = true ∧
    containsSeq ("Req1".toList) quadFamilyFixed = true ∧
    fixMermaidDefinition quadFamilyFixed = quadFamilyFixed :=
  C8_quadrant_repair_idempotent ("高".toList) ("低".toList) ("价".toList) ("值".toList)
    ("计".toList) ("后".toList) ("缓".toList) ("需".toList)
    (by decide) (by decide) (by decide) (by decide) (by decide) (by decide)
    (by decide) (by decide) (by decide) (by decide) (by decide) (by decide)
    (by decide) (by decide) (by decide) (by decide)

end DeepVision
